import Mathlib

/-!
A shallow embedding of the TLS client implementation (tls.c): record layer,
PRF and key derivation, handshake handlers and the TX state machine.
Machine integers are modelled as `Nat` with explicit `% 2^w` where overflow
matters; byte buffers are `List Nat`; fallible C functions returning an
`int rc` are modelled as returning `Option Err` (`none` = 0 = success)
paired with the updated session state.  External cryptographic primitives
(digests, HMAC, ciphers, the RBG) and the X.509 collaborator are supplied
through an explicit environment structure `Env`.
-/

namespace TLS

/-- Error kinds surfaced by the C code (negative errno values). -/
inductive Err where
  | ENOMEM | ENOTSUP | EPROTO | EINVAL | EPERM | EIO | ENOTCONN
  | EACCES_INCOMPLETE | EACCES_WRONG_NAME
deriving DecidableEq, Repr

/-- Return status: `none` models rc = 0, `some e` models a negative errno. -/
abbrev Rc := Option Err

/-! ### Protocol constants

Modelled from the spec: the numeric constants below live in the TLS header
file, which is not part of the provided sources; their values are the RFC
wire values the spec cites (record types in section 4.4, version 0x0304 for
TLS 1.3 in section 8, handshake message codes per RFC 5246). -/

def TLS_VERSION_TLS_1_0 : Nat := 0x0301
def TLS_VERSION_TLS_1_1 : Nat := 0x0302
def TLS_VERSION_TLS_1_2 : Nat := 0x0303

def TLS_TYPE_CHANGE_CIPHER : Nat := 20
def TLS_TYPE_ALERT : Nat := 21
def TLS_TYPE_HANDSHAKE : Nat := 22
def TLS_TYPE_DATA : Nat := 23

def TLS_HELLO_REQUEST : Nat := 0
def TLS_SERVER_HELLO : Nat := 2
def TLS_CERTIFICATE : Nat := 11
def TLS_CERTIFICATE_REQUEST : Nat := 13
def TLS_SERVER_HELLO_DONE : Nat := 14
def TLS_FINISHED : Nat := 20

def TLS_ALERT_WARNING : Nat := 1
def TLS_ALERT_FATAL : Nat := 2

/-- Modelled from the spec: `tx_pending` bit assignments from the TLS header
file (missing from the sources); only distinctness of the bits matters, the
transmission priority order is fixed by the if-else chain in `tls_tx_step`. -/
def TLS_TX_CLIENT_HELLO : Nat := 1
def TLS_TX_CERTIFICATE : Nat := 2
def TLS_TX_CLIENT_KEY_EXCHANGE : Nat := 4
def TLS_TX_CERTIFICATE_VERIFY : Nat := 8
def TLS_TX_CHANGE_CIPHER : Nat := 16
def TLS_TX_FINISHED : Nat := 32

/-- Identifiers for the digest algorithms used by the implementation. -/
def DIGEST_MD5 : Nat := 0
def DIGEST_SHA1 : Nat := 1
def DIGEST_SHA256 : Nat := 2
def DIGEST_MD5_SHA1 : Nat := 3
def DIGEST_NULL : Nat := 4

/-! ### Cipher suites -/

/-- A TLS cipher suite: `code` is the 16-bit suite identifier, `keyLen` the
cipher key length, `digestId`/`digestsize` describe the MAC digest and
`blocksize` the cipher block size.  `isNull` marks the null sentinel suite. -/
structure Suite where
  isNull : Bool
  code : Nat
  keyLen : Nat
  digestId : Nat
  digestsize : Nat
  blocksize : Nat
deriving DecidableEq, Repr

/-- The null cipher suite (`tls_cipher_suite_null`): null pubkey, null cipher
(block size 1, behaving as a stream cipher) and null digest (size 0). -/
def tls_cipher_suite_null : Suite :=
  { isNull := true, code := 0, keyLen := 0, digestId := DIGEST_NULL,
    digestsize := 0, blocksize := 1 }

/-- Supported cipher suites, in order of preference (`tls_cipher_suites`). -/
def tls_cipher_suites : List Suite :=
  [ { isNull := false, code := 0x003D, keyLen := 32, digestId := DIGEST_SHA256,
      digestsize := 32, blocksize := 16 },
    { isNull := false, code := 0x003C, keyLen := 16, digestId := DIGEST_SHA256,
      digestsize := 32, blocksize := 16 },
    { isNull := false, code := 0x0035, keyLen := 32, digestId := DIGEST_SHA1,
      digestsize := 20, blocksize := 16 },
    { isNull := false, code := 0x002F, keyLen := 16, digestId := DIGEST_SHA1,
      digestsize := 20, blocksize := 16 } ]

/-- `tls_find_cipher_suite`: linear scan of the static suite table. -/
def tls_find_cipher_suite (cipher_suite : Nat) : Option Suite :=
  tls_cipher_suites.find? (fun suite => suite.code == cipher_suite)

/-- Modelled from the spec: `is_stream_cipher` (crypto header, missing from
the sources) distinguishes the stream framing from the block framing; the
null cipher counts as a stream cipher. -/
def is_stream_cipher (s : Suite) : Bool := s.blocksize == 1

/-! ### Cipher specifications and session state -/

/-- A per-direction cipher specification (`struct tls_cipherspec`).  The
public-key and cipher contexts are opaque byte states owned by the external
primitives. -/
structure CipherSpec where
  suite : Suite
  pubkey_ctx : List Nat
  cipher_ctx : List Nat
  cipher_next_ctx : List Nat
  mac_secret : List Nat
deriving DecidableEq, Repr

/-- `tls_clear_cipher`: free dynamic storage, zero the spec and reinstall the
null suite. -/
def clearedCipherSpec : CipherSpec :=
  { suite := tls_cipher_suite_null, pubkey_ctx := [], cipher_ctx := [],
    cipher_next_ctx := [], mac_secret := [] }

/-- The TLS session state (`struct tls_session`).  The two running handshake
transcript contexts are opaque digest states; `hs_digest_sha256` records
which of them `handshake_digest`/`handshake_ctx` currently select.
`delivered` is an observer recording the plaintext payloads handed upward
via `xfer_deliver_raw`. -/
structure Session where
  version : Nat
  tx_cipherspec : CipherSpec
  tx_cipherspec_pending : CipherSpec
  rx_cipherspec : CipherSpec
  rx_cipherspec_pending : CipherSpec
  tx_seq : Nat
  rx_seq : Nat
  tx_pending : Nat
  tx_ready : Bool
  hs_md5sha1_ctx : List Nat
  hs_sha256_ctx : List Nat
  hs_digest_sha256 : Bool
  client_random : List Nat
  server_random : List Nat
  pre_master_secret : List Nat
  master_secret : List Nat
  rx_header : List Nat
  rx_data : List Nat
  rx_state_data : Bool
  delivered : List (List Nat)
deriving DecidableEq, Repr

/-- The environment of external collaborators: digest/HMAC primitives,
the symmetric cipher, the RBG, allocation and transfer outcomes, and the
X.509-dependent Certificate handler (whose body delegates to the external
certificate-chain validator).  Functions over opaque contexts return the
updated context alongside their result. -/
structure Env where
  hmac : Nat → List Nat → List Nat → List Nat
  md5sha1_update : List Nat → List Nat → List Nat
  sha256_update : List Nat → List Nat → List Nat
  md5sha1_final : List Nat → List Nat × List Nat
  sha256_final : List Nat → List Nat × List Nat
  encrypt : List Nat → List Nat → List Nat × List Nat
  decrypt : List Nat → List Nat → List Nat × List Nat
  setkey : List Nat → List Nat → Rc × List Nat
  setiv : List Nat → List Nat → List Nat
  random : Nat → List Nat
  alloc_ok : Bool
  iob_alloc_ok : Bool
  deliver_rc : Rc
  plain_deliver_rc : Rc
  window : Nat
  new_certificate : Session → List Nat → Rc × Session

/-! ### Utility functions -/

/-- `tls_uint24`: the C code reads the 3-byte field through an aliased
32-bit big-endian load (which also covers the byte following the field) and
shifts right by 8; `next` is that following byte, discarded by the shift. -/
def tls_uint24 (field : List Nat) (next : Nat) : Nat :=
  (field.getD 0 0 * 2 ^ 24 + field.getD 1 0 * 2 ^ 16 +
    field.getD 2 0 * 2 ^ 8 + next) / 2 ^ 8

/-- `tls_set_uint24`: ORs `cpu_to_be32 (value << 8)` into the pre-zeroed
3-byte field (the fourth byte of the aliased store is zero). -/
def tls_set_uint24 (field : List Nat) (value : Nat) : List Nat :=
  let v32 := (value * 2 ^ 8) % 2 ^ 32
  [field.getD 0 0 ||| (v32 / 2 ^ 24 % 2 ^ 8),
   field.getD 1 0 ||| (v32 / 2 ^ 16 % 2 ^ 8),
   field.getD 2 0 ||| (v32 / 2 ^ 8 % 2 ^ 8)]

/-- Big-endian 16-bit encoding (two bytes). -/
def be16 (v : Nat) : List Nat := [v / 2 ^ 8 % 2 ^ 8, v % 2 ^ 8]

/-- Big-endian 64-bit encoding (eight bytes), as used for sequence numbers. -/
def be64 (v : Nat) : List Nat :=
  [v / 2 ^ 56 % 2 ^ 8, v / 2 ^ 48 % 2 ^ 8, v / 2 ^ 40 % 2 ^ 8,
   v / 2 ^ 32 % 2 ^ 8, v / 2 ^ 24 % 2 ^ 8, v / 2 ^ 16 % 2 ^ 8,
   v / 2 ^ 8 % 2 ^ 8, v % 2 ^ 8]

/-- A 5-byte record header `struct tls_header` {type, version, length}. -/
def mkHdr (ty version len : Nat) : List Nat :=
  [ty % 2 ^ 8] ++ be16 version ++ be16 len

/-- ASCII bytes of a string literal label (without the trailing NUL). -/
def strBytes (s : String) : List Nat := s.toList.map Char.toNat

/-! ### The TLS PRF (`tls_p_hash_va`, `tls_prf`, `tls_prf_label`)

`hmac` abstracts `HMAC_digest(secret, ·)` for one digest algorithm; the
digest size is passed as `dsz1 + 1` because every digest used by the code
has a positive size (the C loop would not terminate for size 0). -/

/-- The output loop of `tls_p_hash_va`: given `A(i)` (`a`), emit
`HMAC(secret, A(i) ++ seed)` truncated to the remaining length, compute
`A(i+1) = HMAC(secret, A(i))` (the partially-updated context trick) and
continue until `out_len` bytes are produced.  The structural `fuel`
argument bounds the number of loop iterations; every iteration produces at
least one byte, so `fuel = out_len` (as passed by `tls_p_hash_va`) always
suffices and the fuel-exhausted branch is unreachable. -/
def tls_p_hash (hmac : List Nat → List Nat) (dsz1 : Nat) (seed : List Nat) :
    Nat → Nat → List Nat → List Nat
  | 0, _, _ => []
  | fuel + 1, out_len, a =>
    if out_len = 0 then []
    else
      let out_tmp := hmac (a ++ seed)
      let frag_len := min (dsz1 + 1) out_len
      out_tmp.take frag_len ++
        tls_p_hash hmac dsz1 seed fuel (out_len - frag_len) (hmac a)

/-- `tls_p_hash_va`: computes `A(1) = HMAC(secret, seed)` and runs the
output loop. -/
def tls_p_hash_va (hmac : List Nat → List Nat) (dsz1 : Nat)
    (seed : List Nat) (out_len : Nat) : List Nat :=
  tls_p_hash hmac dsz1 seed out_len out_len (hmac seed)

/-- `tls_prf`: P_SHA256 for TLS ≥ 1.2; for earlier versions the secret is
split into two halves of `⌈len/2⌉` bytes (overlapping by at most one byte)
and the output is P_MD5(S1) XOR P_SHA1(S2). -/
def tls_prf (env : Env) (version : Nat) (secret : List Nat) (out_len : Nat)
    (seed : List Nat) : List Nat :=
  if TLS_VERSION_TLS_1_2 ≤ version then
    tls_p_hash_va (env.hmac DIGEST_SHA256 secret) 31 seed out_len
  else
    let subsecret_len := (secret.length + 1) / 2
    let md5_secret := secret.take subsecret_len
    let sha1_secret := secret.drop (secret.length - subsecret_len)
    List.zipWith (fun x y => x ^^^ y)
      (tls_p_hash_va (env.hmac DIGEST_MD5 md5_secret) 15 seed out_len)
      (tls_p_hash_va (env.hmac DIGEST_SHA1 sha1_secret) 19 seed out_len)

/-- `tls_prf_label`: the seed is always the label string followed by the
concatenated seed chunks. -/
def tls_prf_label (env : Env) (version : Nat) (secret : List Nat)
    (out_len : Nat) (label : String) (seed : List Nat) : List Nat :=
  tls_prf env version secret out_len (strBytes label ++ seed)

/-! Specification-side P_hash, following the spec text: `A(0) = seed`,
`A(i) = HMAC(secret, A(i-1))`, `output_i = HMAC(secret, A(i) ++ seed)`;
the outputs are concatenated and truncated to the requested length.  These
definitions follow the spec words and are compared with the code-shaped
`tls_p_hash` in the refinement theorem for the PRF claim. -/

/-- The spec's `A` chain: `A(0) = seed`, `A(i) = HMAC_H(secret, A(i−1))`. -/
def p_hash_A (hmac : List Nat → List Nat) (seed : List Nat) : Nat → List Nat
  | 0 => seed
  | i + 1 => hmac (p_hash_A hmac seed i)

/-- The spec's P_hash: concatenate `output_i = HMAC(secret, A(i) ++ seed)`
for `i = 1..nblocks` and truncate to `out_len`. -/
def p_hash_spec (hmac : List Nat → List Nat) (seed : List Nat)
    (nblocks out_len : Nat) : List Nat :=
  (List.flatten ((List.range nblocks).map
    (fun i => hmac (p_hash_A hmac seed (i + 1) ++ seed)))).take out_len

/-! ### Secret management -/

/-- `tls_generate_master_secret`: PRF of the pre-master secret with label
"master secret" and seed client_random ++ server_random, producing the
48-byte master secret. -/
def tls_generate_master_secret (env : Env) (s : Session) : Session :=
  { s with master_secret :=
      (tls_prf_label env s.version s.pre_master_secret 48 "master secret"
        (s.client_random ++ s.server_random)) }

/-- `tls_generate_keys`: derive the key block with label "key expansion" and
seed server_random ++ client_random, then slice it in order into TX MAC
secret, RX MAC secret, TX key, RX key, TX IV and RX IV, installing each
portion into the pending cipher specs. -/
def tls_generate_keys (env : Env) (s : Session) : Rc × Session :=
  let hash_size := s.tx_cipherspec_pending.suite.digestsize
  let key_size := s.tx_cipherspec_pending.suite.keyLen
  let iv_size := s.tx_cipherspec_pending.suite.blocksize
  let total := 2 * (hash_size + key_size + iv_size)
  let key_block := tls_prf_label env s.version s.master_secret total
    "key expansion" (s.server_random ++ s.client_random)
  let tx_mac := key_block.take hash_size
  let rx_mac := (key_block.drop hash_size).take hash_size
  let tx_key := (key_block.drop (2 * hash_size)).take key_size
  let rx_key := (key_block.drop (2 * hash_size + key_size)).take key_size
  let tx_iv := (key_block.drop (2 * hash_size + 2 * key_size)).take iv_size
  let rx_iv :=
    (key_block.drop (2 * hash_size + 2 * key_size + iv_size)).take iv_size
  let s := { s with
    tx_cipherspec_pending := { s.tx_cipherspec_pending with mac_secret := tx_mac },
    rx_cipherspec_pending := { s.rx_cipherspec_pending with mac_secret := rx_mac } }
  match env.setkey s.tx_cipherspec_pending.cipher_ctx tx_key with
  | (some e, ctx') =>
    (some e, { s with tx_cipherspec_pending :=
      { s.tx_cipherspec_pending with cipher_ctx := ctx' } })
  | (none, tx_ctx) =>
    let s := { s with tx_cipherspec_pending :=
      { s.tx_cipherspec_pending with cipher_ctx := tx_ctx } }
    match env.setkey s.rx_cipherspec_pending.cipher_ctx rx_key with
    | (some e, ctx') =>
      (some e, { s with rx_cipherspec_pending :=
        { s.rx_cipherspec_pending with cipher_ctx := ctx' } })
    | (none, rx_ctx) =>
      let s := { s with rx_cipherspec_pending :=
        { s.rx_cipherspec_pending with cipher_ctx := rx_ctx } }
      let s := { s with tx_cipherspec_pending :=
        { s.tx_cipherspec_pending with cipher_ctx :=
            (env.setiv s.tx_cipherspec_pending.cipher_ctx tx_iv) } }
      let s := { s with rx_cipherspec_pending :=
        { s.rx_cipherspec_pending with cipher_ctx :=
            (env.setiv s.rx_cipherspec_pending.cipher_ctx rx_iv) } }
      (none, s)

/-! ### Cipher suite management -/

/-- `tls_set_cipher`: clear the old contents, allocate zero-initialised
dynamic storage (pubkey context, two cipher context slots and the MAC
secret) and attach the suite; on allocation failure the spec is left
cleared. -/
def tls_set_cipher (env : Env) (suite : Suite) : Rc × CipherSpec :=
  if env.alloc_ok then
    (none, { suite := suite, pubkey_ctx := [], cipher_ctx := [],
             cipher_next_ctx := [],
             mac_secret := List.replicate suite.digestsize 0 })
  else (some Err.ENOMEM, clearedCipherSpec)

/-- `tls_select_cipher`: look up the suite by code (unknown → ENOTSUP) and
install it into both pending cipher specifications. -/
def tls_select_cipher (env : Env) (s : Session) (cipher_suite : Nat) :
    Rc × Session :=
  match tls_find_cipher_suite cipher_suite with
  | none => (some Err.ENOTSUP, s)
  | some suite =>
    match tls_set_cipher env suite with
    | (some e, cs) => (some e, { s with tx_cipherspec_pending := cs })
    | (none, cs) =>
      let s := { s with tx_cipherspec_pending := cs }
      match tls_set_cipher env suite with
      | (some e, cs') => (some e, { s with rx_cipherspec_pending := cs' })
      | (none, cs') => (none, { s with rx_cipherspec_pending := cs' })

/-- `tls_change_cipher`: refuse to activate the null suite; otherwise clear
the active spec and swap the whole structures, leaving the pending spec
cleared.  Returns (rc, new pending, new active). -/
def tls_change_cipher (pending active : CipherSpec) :
    Rc × CipherSpec × CipherSpec :=
  if pending.suite.isNull then (some Err.ENOTSUP, pending, active)
  else (none, clearedCipherSpec, pending)

/-! ### Handshake verification (running transcript) -/

/-- `tls_add_handshake`: append a handshake record to both running
transcript digest contexts. -/
def tls_add_handshake (env : Env) (s : Session) (data : List Nat) : Session :=
  { s with hs_md5sha1_ctx := env.md5sha1_update s.hs_md5sha1_ctx data,
           hs_sha256_ctx := env.sha256_update s.hs_sha256_ctx data }

/-- `tls_verify_handshake`: copy the active transcript context and finalise
the copy; the second component is the (unchanged) session, reflecting that
the running context is not consumed. -/
def tls_verify_handshake (env : Env) (s : Session) : List Nat × Session :=
  let out :=
    if s.hs_digest_sha256 then (env.sha256_final s.hs_sha256_ctx).1
    else (env.md5sha1_final s.hs_md5sha1_ctx).1
  (out, s)

/-! ### Record transmission -/

/-- `tls_hmac`: HMAC over the 8-byte big-endian sequence number, the 5-byte
record header and the record contents, keyed with the MAC secret. -/
def tls_hmac (env : Env) (cs : CipherSpec) (seq : Nat) (hdr : List Nat)
    (data : List Nat) : List Nat :=
  env.hmac cs.suite.digestId cs.mac_secret (be64 (seq % 2 ^ 64) ++ hdr ++ data)

/-- `tls_assemble_stream`: content followed by the MAC. -/
def tls_assemble_stream (data mac : List Nat) : List Nat := data ++ mac

/-- `tls_assemble_block`: explicit random IV (for ≥ 1.1), content, MAC and
`padding_len + 1` bytes each holding `padding_len`, sized so the total is a
multiple of the cipher block size (two's-complement arithmetic on size_t). -/
def tls_assemble_block (env : Env) (s : Session) (data mac : List Nat) :
    List Nat :=
  let blocksize := s.tx_cipherspec.suite.blocksize
  let iv_len := if TLS_VERSION_TLS_1_1 ≤ s.version then blocksize else 0
  let padding_len := (blocksize - 1) &&&
    ((2 ^ 64 - (iv_len + data.length + mac.length + 1) % 2 ^ 64) % 2 ^ 64)
  env.random iv_len ++ data ++ mac ++
    List.replicate (padding_len + 1) padding_len

/-- The plaintext buffer `tls_send_plaintext` assembles before encryption. -/
def tls_send_assembled (env : Env) (s : Session) (ty : Nat)
    (data : List Nat) : List Nat :=
  let mac := tls_hmac env s.tx_cipherspec s.tx_seq
    (mkHdr ty s.version data.length) data
  if is_stream_cipher s.tx_cipherspec.suite then tls_assemble_stream data mac
  else tls_assemble_block env s data mac

/-- `tls_send_plaintext`: compute the MAC with the current `tx_seq`,
assemble the plaintext structure, encrypt it with the scratch "next" cipher
context (a copy of the active one) and deliver the ciphertext record; only
after successful delivery are `tx_seq` incremented and the scratch context
committed back to the active context. -/
def tls_send_plaintext (env : Env) (s : Session) (ty : Nat)
    (data : List Nat) : Rc × Session :=
  if ¬env.alloc_ok then (some Err.ENOMEM, s)
  else
    let plaintext := tls_send_assembled env s ty data
    if ¬env.iob_alloc_ok then (some Err.ENOMEM, s)
    else
      let (_ciphertext, ctx') :=
        env.encrypt s.tx_cipherspec.cipher_ctx plaintext
      let s1 := { s with tx_cipherspec :=
        { s.tx_cipherspec with cipher_next_ctx := ctx' } }
      match env.deliver_rc with
      | some e => (some e, s1)
      | none =>
        (none, { s1 with
                 tx_seq := (s1.tx_seq + 1) % 2 ^ 64,
                 tx_cipherspec :=
                   { s1.tx_cipherspec with cipher_ctx := ctx' } })

/-- `tls_send_handshake`: append the record to the transcript, then transmit
it as a Handshake record. -/
def tls_send_handshake (env : Env) (s : Session) (data : List Nat) :
    Rc × Session :=
  tls_send_plaintext env (tls_add_handshake env s data) TLS_TYPE_HANDSHAKE data

/-- `tls_send_change_cipher`: a single-byte ChangeCipherSpec record. -/
def tls_send_change_cipher (env : Env) (s : Session) : Rc × Session :=
  tls_send_plaintext env s TLS_TYPE_CHANGE_CIPHER [1]

/-- `tls_send_finished`: 12-byte verify_data = PRF(master_secret,
"client finished", transcript digest), sent as a Finished handshake record
with its 4-byte type/length prefix. -/
def tls_send_finished (env : Env) (s : Session) : Rc × Session :=
  let (digest_out, s) := tls_verify_handshake env s
  let verify_data := tls_prf_label env s.version s.master_secret 12
    "client finished" digest_out
  tls_send_handshake env s ([TLS_FINISHED, 0, 0, 12] ++ verify_data)

/-! ### Record reception -/

/-- `tls_new_change_cipher`: require a single byte of value 1, activate the
pending RX cipher spec and set `rx_seq` to `2^64 − 1` (all-ones), relying on
the caller's unconditional increment to wrap it to 0. -/
def tls_new_change_cipher (s : Session) (data : List Nat) : Rc × Session :=
  if data.length ≠ 1 then (some Err.EINVAL, s)
  else if data.getD 0 0 ≠ 1 then (some Err.EINVAL, s)
  else
    match tls_change_cipher s.rx_cipherspec_pending s.rx_cipherspec with
    | (some e, _, _) => (some e, s)
    | (none, pending', active') =>
      (none, { s with
               rx_cipherspec_pending := pending',
               rx_cipherspec := active', rx_seq := 2 ^ 64 - 1 })

/-- `tls_new_alert`: 2-byte {level, description}; warning → ignored,
fatal → EPERM, anything else → EIO. -/
def tls_new_alert (s : Session) (data : List Nat) : Rc × Session :=
  if data.length ≠ 2 then (some Err.EINVAL, s)
  else if data.getD 0 0 = TLS_ALERT_WARNING then (none, s)
  else if data.getD 0 0 = TLS_ALERT_FATAL then (some Err.EPERM, s)
  else (some Err.EIO, s)

/-- The tail of `tls_new_server_hello` once the version has been accepted:
select the cipher suite, then generate the master secret and keys, with
early returns on failure. -/
def tls_server_hello_finish (env : Env) (s : Session) (cipher_suite : Nat) :
    Rc × Session :=
  match tls_select_cipher env s cipher_suite with
  | (some e, s) => (some e, s)
  | (none, s) => tls_generate_keys env (tls_generate_master_secret env s)

/-- `tls_new_server_hello`: check the fixed fields fit in the body, check
and store the protocol version (v < 1.0 → ENOTSUP, v greater than the
current session version → EPROTO), switch the handshake digest to MD5+SHA1
for v < 1.2, copy the server random, select the cipher suite and derive the
master secret and keys.  Trailing bytes after the compression method are
not examined. -/
def tls_new_server_hello (env : Env) (s : Session) (data : List Nat) :
    Rc × Session :=
  let session_id_len := data.getD 34 0
  if 35 + session_id_len + 3 > data.length then (some Err.EINVAL, s)
  else
    let version := data.getD 0 0 * 2 ^ 8 + data.getD 1 0
    if version < TLS_VERSION_TLS_1_0 then (some Err.ENOTSUP, s)
    else if s.version < version then (some Err.EPROTO, s)
    else
      let s := { s with version := version }
      let s := if version < TLS_VERSION_TLS_1_2 then
        { s with hs_digest_sha256 := false } else s
      let s := { s with server_random := (data.drop 2).take 32 }
      let cipher_suite := data.getD (35 + session_id_len) 0 * 2 ^ 8 +
        data.getD (36 + session_id_len) 0
      tls_server_hello_finish env s cipher_suite

/-- `tls_new_certificate_request`: the body is ignored; Certificate
transmission is scheduled. -/
def tls_new_certificate_request (s : Session) : Rc × Session :=
  (none, { s with tx_pending := s.tx_pending ||| TLS_TX_CERTIFICATE })

/-- `tls_new_server_hello_done`: empty body; schedule ClientKeyExchange,
ChangeCipherSpec and Finished. -/
def tls_new_server_hello_done (s : Session) (data : List Nat) :
    Rc × Session :=
  if data.length ≠ 0 then (some Err.EINVAL, s)
  else
    (none, { s with tx_pending := s.tx_pending |||
      (TLS_TX_CLIENT_KEY_EXCHANGE ||| TLS_TX_CHANGE_CIPHER |||
        TLS_TX_FINISHED) })

/-- `tls_new_finished`: 12-byte body compared against
PRF(master_secret, "server finished", transcript digest); mismatch → EPERM;
success marks the session ready to transmit plaintext. -/
def tls_new_finished (env : Env) (s : Session) (data : List Nat) :
    Rc × Session :=
  if data.length ≠ 12 then (some Err.EINVAL, s)
  else
    let (digest_out, s) := tls_verify_handshake env s
    let verify_data := tls_prf_label env s.version s.master_secret 12
      "server finished" digest_out
    if data ≠ verify_data then (some Err.EPERM, s)
    else (none, { s with tx_ready := true })

/-- The switch on the handshake message type in `tls_new_handshake`:
recognised types go to their handlers, everything else is ignored with
rc = 0. -/
def tls_handshake_dispatch (env : Env) (s : Session) (ty : Nat)
    (payload : List Nat) : Rc × Session :=
  if ty = TLS_SERVER_HELLO then tls_new_server_hello env s payload
  else if ty = TLS_CERTIFICATE then env.new_certificate s payload
  else if ty = TLS_CERTIFICATE_REQUEST then tls_new_certificate_request s
  else if ty = TLS_SERVER_HELLO_DONE then tls_new_server_hello_done s payload
  else if ty = TLS_FINISHED then tls_new_finished env s payload
  else (none, s)

/-- The loop body of `tls_new_handshake`: iterate the handshake messages in
the record; each message has a 1-byte type and 24-bit length; a message
extending past the end of the record is EINVAL.  The handler for the
message type runs first, then the message (header included) is appended to
the transcript unless it is a HelloRequest, and only then is a handler
failure propagated.  The structural `fuel` argument bounds the number of
iterations; each iteration consumes at least four bytes, so
`fuel = data.length` always suffices. -/
def tls_new_handshake_loop (env : Env) :
    Nat → Session → List Nat → Rc × Session
  | 0, s, _ => (none, s)
  | fuel + 1, s, data =>
    if data = [] then (none, s)
    else
      let ty := data.getD 0 0
      let payload_len := tls_uint24 (data.drop 1) (data.getD 4 0)
      if 4 + payload_len > data.length then (some Err.EINVAL, s)
      else
        let r := tls_handshake_dispatch env s ty ((data.drop 4).take
          payload_len)
        let s2 := if ty ≠ TLS_HELLO_REQUEST then
          tls_add_handshake env r.2 (data.take (4 + payload_len)) else r.2
        match r.1 with
        | some e => (some e, s2)
        | none =>
          tls_new_handshake_loop env fuel s2 (data.drop (4 + payload_len))

/-- `tls_new_handshake`: run the message loop over the whole record. -/
def tls_new_handshake (env : Env) (s : Session) (data : List Nat) :
    Rc × Session :=
  tls_new_handshake_loop env data.length s data

/-- `tls_new_record`: dispatch a decrypted record by type; unknown record
types are silently ignored.  Application data is handed upward through
`xfer_deliver_raw` (recorded in `delivered`). -/
def tls_new_record (env : Env) (s : Session) (ty : Nat) (data : List Nat) :
    Rc × Session :=
  if ty = TLS_TYPE_CHANGE_CIPHER then tls_new_change_cipher s data
  else if ty = TLS_TYPE_ALERT then tls_new_alert s data
  else if ty = TLS_TYPE_HANDSHAKE then tls_new_handshake env s data
  else if ty = TLS_TYPE_DATA then
    (env.plain_deliver_rc, { s with delivered := s.delivered ++ [data] })
  else (none, s)

/-! ### Record decryption -/

/-- `tls_split_stream`: body = plaintext[0 .. len − mac_len), MAC = tail. -/
def tls_split_stream (s : Session) (plaintext : List Nat) :
    Except Err (List Nat × List Nat) :=
  let mac_len := s.rx_cipherspec.suite.digestsize
  if plaintext.length < mac_len then .error Err.EINVAL
  else
    .ok (plaintext.take (plaintext.length - mac_len),
      plaintext.drop (plaintext.length - mac_len))

/-- `tls_split_block`: `padding_len` is the last byte; reject when
`iv_len + mac_len + padding_len + 1` exceeds the plaintext length or when
any padding byte differs from `padding_len`; strip the IV prefix (≥ 1.1),
return the middle as content and the following `mac_len` bytes as MAC. -/
def tls_split_block (s : Session) (plaintext : List Nat) :
    Except Err (List Nat × List Nat) :=
  if plaintext.length < 1 then .error Err.EINVAL
  else
    let iv_len := if TLS_VERSION_TLS_1_1 ≤ s.version then
      s.rx_cipherspec.suite.blocksize else 0
    let mac_len := s.rx_cipherspec.suite.digestsize
    let padding_len := plaintext.getLastD 0
    if plaintext.length < iv_len + mac_len + padding_len + 1 then
      .error Err.EINVAL
    else
      let content_len :=
        plaintext.length - iv_len - mac_len - padding_len - 1
      let content := (plaintext.drop iv_len).take content_len
      let mac := (plaintext.drop (iv_len + content_len)).take mac_len
      let padding :=
        (plaintext.drop (iv_len + content_len + mac_len)).take padding_len
      if padding.any (fun b => b ≠ padding_len) then .error Err.EINVAL
      else .ok (content, mac)

/-- `tls_new_ciphertext`: decrypt the record with the active RX cipher
context, split it into content and MAC, recompute the MAC over
(rx_seq ‖ plaintext header ‖ content) and compare.  On MAC mismatch the C
code jumps to the cleanup label with `rc` still holding the 0 of the
successful split, so the function returns success without dispatching the
record; on a match the record is dispatched by type. -/
def tls_new_ciphertext (env : Env) (s : Session) (hdr : List Nat)
    (ciphertext : List Nat) : Rc × Session :=
  let record_len := hdr.getD 3 0 * 2 ^ 8 + hdr.getD 4 0
  if ¬env.alloc_ok then (some Err.ENOMEM, s)
  else
    let cs := s.rx_cipherspec
    let (plaintext, ctx') :=
      env.decrypt cs.cipher_ctx (ciphertext.take record_len)
    let s := { s with rx_cipherspec :=
      { cs with cipher_ctx := ctx' } }
    let split :=
      if is_stream_cipher cs.suite then tls_split_stream s plaintext
      else tls_split_block s plaintext
    match split with
    | .error e => (some e, s)
    | .ok (content, mac) =>
      let version := hdr.getD 1 0 * 2 ^ 8 + hdr.getD 2 0
      let verify_mac := tls_hmac env s.rx_cipherspec s.rx_seq
        (mkHdr (hdr.getD 0 0) version content.length) content
      if mac ≠ verify_mac then (none, s)
      else tls_new_record env s (hdr.getD 0 0) content

/-- `tls_newdata_process_data`: process the reassembled record, then
unconditionally increment `rx_seq`, free the receive buffer and return to
the header state. -/
def tls_newdata_process_data (env : Env) (s : Session) : Rc × Session :=
  match tls_new_ciphertext env s s.rx_header s.rx_data with
  | (some e, s') => (some e, s')
  | (none, s') =>
    (none, { s' with
             rx_seq := (s'.rx_seq + 1) % 2 ^ 64, rx_data := [],
             rx_state_data := false })

/-! ### TX state machine -/

/-- Abstract outcomes for the four transmissions whose bodies depend on the
external public-key/X.509 collaborators (ClientHello, Certificate,
ClientKeyExchange, CertificateVerify). -/
structure TxSends where
  send_client_hello : Session → Rc × Session
  send_certificate : Session → Rc × Session
  send_client_key_exchange : Session → Rc × Session
  send_certificate_verify : Session → Rc × Session

/-- `tls_tx_step`: wait for a ciphertext window, then consume the first
pending transmission in priority order.  After a ChangeCipherSpec is
successfully transmitted, the pending TX cipher spec is activated and
`tx_seq` is reset to 0.  An error closes the session with that status
(returned here as the rc). -/
def tls_tx_step (env : Env) (sends : TxSends) (s : Session) :
    Rc × Session :=
  if env.window = 0 then (none, s)
  else if s.tx_pending &&& TLS_TX_CLIENT_HELLO ≠ 0 then
    match sends.send_client_hello s with
    | (some e, s') => (some e, s')
    | (none, s') =>
      (none, { s' with tx_pending :=
        s'.tx_pending &&& (63 ^^^ TLS_TX_CLIENT_HELLO) })
  else if s.tx_pending &&& TLS_TX_CERTIFICATE ≠ 0 then
    match sends.send_certificate s with
    | (some e, s') => (some e, s')
    | (none, s') =>
      (none, { s' with tx_pending :=
        s'.tx_pending &&& (63 ^^^ TLS_TX_CERTIFICATE) })
  else if s.tx_pending &&& TLS_TX_CLIENT_KEY_EXCHANGE ≠ 0 then
    match sends.send_client_key_exchange s with
    | (some e, s') => (some e, s')
    | (none, s') =>
      (none, { s' with tx_pending :=
        s'.tx_pending &&& (63 ^^^ TLS_TX_CLIENT_KEY_EXCHANGE) })
  else if s.tx_pending &&& TLS_TX_CERTIFICATE_VERIFY ≠ 0 then
    match sends.send_certificate_verify s with
    | (some e, s') => (some e, s')
    | (none, s') =>
      (none, { s' with tx_pending :=
        s'.tx_pending &&& (63 ^^^ TLS_TX_CERTIFICATE_VERIFY) })
  else if s.tx_pending &&& TLS_TX_CHANGE_CIPHER ≠ 0 then
    match tls_send_change_cipher env s with
    | (some e, s') => (some e, s')
    | (none, s') =>
      match tls_change_cipher s'.tx_cipherspec_pending s'.tx_cipherspec with
      | (some e, _, _) => (some e, s')
      | (none, pending', active') =>
        (none, { s' with
                 tx_cipherspec := active',
                 tx_cipherspec_pending := pending', tx_seq := 0,
                 tx_pending :=
                   s'.tx_pending &&& (63 ^^^ TLS_TX_CHANGE_CIPHER) })
  else if s.tx_pending &&& TLS_TX_FINISHED ≠ 0 then
    match tls_send_finished env s with
    | (some e, s') => (some e, s')
    | (none, s') =>
      (none, { s' with tx_pending :=
        s'.tx_pending &&& (63 ^^^ TLS_TX_FINISHED) })
  else (none, s)

/-! Specification-side parser for the contents of a Handshake record: the
sequence of (type, full message bytes with the 4-byte prefix) pairs.  Used
to state the transcript claim. -/

/-- Parse a Handshake record body into its messages; `none` when a message
overruns the record.  `fuel = data.length` always suffices, as each message
occupies at least four bytes. -/
def parseHandshakesF : Nat → List Nat → Option (List (Nat × List Nat))
  | 0, _ => some []
  | fuel + 1, data =>
    if data = [] then some []
    else
      let len :=
        data.getD 1 0 * 2 ^ 16 + data.getD 2 0 * 2 ^ 8 + data.getD 3 0
      if 4 + len > data.length then none
      else
        match parseHandshakesF fuel (data.drop (4 + len)) with
        | none => none
        | some rest => some ((data.getD 0 0, data.take (4 + len)) :: rest)

/-- Parse a Handshake record body into its messages. -/
def parseHandshakes (data : List Nat) : Option (List (Nat × List Nat)) :=
  parseHandshakesF data.length data

/-! ### Concrete instances used to evaluate the model on explicit inputs -/

/-- A concrete environment with trivial primitives: the null HMAC, ciphers
that pass data through unchanged, transcript contexts that accumulate the
absorbed bytes, successful allocations and deliveries, and a Certificate
handler that accepts without touching the session. -/
def idEnv : Env where
  hmac := fun _ _ _ => []
  md5sha1_update := fun c d => c ++ d
  sha256_update := fun c d => c ++ d
  md5sha1_final := fun c => (c, [])
  sha256_final := fun c => (c, [])
  encrypt := fun c p => (p, c)
  decrypt := fun c p => (p, c)
  setkey := fun c _ => (none, c)
  setiv := fun c _ => c
  random := fun n => List.replicate n 0
  alloc_ok := true
  iob_alloc_ok := true
  deliver_rc := none
  plain_deliver_rc := none
  window := 1
  new_certificate := fun s _ => (none, s)

/-- The session state as initialised by `add_tls`: version 1.2, all four
cipher specs cleared to the null suite, SHA-256 selected as the running
transcript digest and ClientHello pending (the externally generated random
values are abstracted to fixed bytes). -/
def initSession : Session where
  version := TLS_VERSION_TLS_1_2
  tx_cipherspec := clearedCipherSpec
  tx_cipherspec_pending := clearedCipherSpec
  rx_cipherspec := clearedCipherSpec
  rx_cipherspec_pending := clearedCipherSpec
  tx_seq := 0
  rx_seq := 0
  tx_pending := TLS_TX_CLIENT_HELLO
  tx_ready := false
  hs_md5sha1_ctx := []
  hs_sha256_ctx := []
  hs_digest_sha256 := true
  client_random := List.replicate 32 0
  server_random := []
  pre_master_secret := List.replicate 48 0
  master_secret := []
  rx_header := []
  rx_data := []
  rx_state_data := false
  delivered := []

/-- A session whose active RX spec uses RSA+AES-128-CBC+SHA-1 with a
zeroed MAC secret, for evaluating the record receive path on explicit
inputs. -/
def rxAesSession : Session :=
  { initSession with rx_cipherspec :=
      { suite := { isNull := false, code := 0x002F, keyLen := 16,
                   digestId := DIGEST_SHA1, digestsize := 20,
                   blocksize := 16 },
        pubkey_ctx := [], cipher_ctx := [], cipher_next_ctx := [],
        mac_secret := List.replicate 20 0 } }

/-- An environment whose HMAC primitive returns constant digests of the
correct per-algorithm sizes (16 for MD5, 20 for SHA-1, 32 for SHA-256),
for evaluating the PRF and key-derivation paths on explicit inputs. -/
def prfEnv : Env :=
  { idEnv with hmac := fun id _ _ =>
      List.replicate (if id = 0 then 16 else if id = 1 then 20 else 32) 1 }

/-! ## Theorems -/

/-- **C9.** For every value `v < 2^24` and pre-zeroed 3-byte field, reading
the field back with `tls_uint24` after `tls_set_uint24 field v` returns `v`
(for any byte following the field): the 24-bit big-endian encode/decode
pair is a round-trip on the full range. -/
theorem C9_uint24_roundtrip (v next : Nat) (hv : v < 2 ^ 24)
    (hn : next < 2 ^ 8) :
    tls_uint24 (tls_set_uint24 [0, 0, 0] v) next = v := by
  simp only [tls_set_uint24, tls_uint24, List.getD, List.get?, Nat.zero_or,
    List.getD_cons_zero, List.getD_cons_succ, Option.getD_some]
  have h32 : v * 2 ^ 8 < 2 ^ 32 := by omega
  rw [Nat.mod_eq_of_lt h32]
  omega

/-- Witness for C9 at a concrete input. -/
theorem C9_uint24_roundtrip_witness :
    0xABCDEF < 2 ^ 24 ∧ 0x7F < 2 ^ 8 ∧
      tls_uint24 (tls_set_uint24 [0, 0, 0] 0xABCDEF) 0x7F = 0xABCDEF :=
  ⟨by norm_num, by norm_num,
    C9_uint24_roundtrip 0xABCDEF 0x7F (by norm_num) (by norm_num)⟩

/-- **C10.** The ServerHello handler rejects a body as malformed (EINVAL)
only when the fixed fields (version, random, session id with its length
byte, cipher suite, compression method) extend past the end of the body; a
body with additional trailing bytes after the compression method is handled
exactly like the body without them — the trailing bytes are ignored, not
parsed or rejected. -/
theorem C10_server_hello_trailing (env : Env) (s : Session)
    (data extra : List Nat) :
    (35 + data.getD 34 0 + 3 > data.length →
      tls_new_server_hello env s data = (some Err.EINVAL, s)) ∧
    (data.length = 38 + data.getD 34 0 →
      tls_new_server_hello env s (data ++ extra) =
        tls_new_server_hello env s data) := by
  constructor
  · intro h
    simp only [tls_new_server_hello]
    rw [if_pos h]
  · intro hlen
    have hg34 : (data ++ extra).getD 34 0 = data.getD 34 0 :=
      List.getD_append _ _ _ _ (by omega)
    have h0 : (data ++ extra).getD 0 0 = data.getD 0 0 :=
      List.getD_append _ _ _ _ (by omega)
    have h1 : (data ++ extra).getD 1 0 = data.getD 1 0 :=
      List.getD_append _ _ _ _ (by omega)
    have hc1 : (data ++ extra).getD (35 + data.getD 34 0) 0 =
        data.getD (35 + data.getD 34 0) 0 :=
      List.getD_append _ _ _ _ (by omega)
    have hc2 : (data ++ extra).getD (36 + data.getD 34 0) 0 =
        data.getD (36 + data.getD 34 0) 0 :=
      List.getD_append _ _ _ _ (by omega)
    have hr : ((data ++ extra).drop 2).take 32 = (data.drop 2).take 32 := by
      rw [List.drop_append_of_le_length (by omega),
        List.take_append_of_le_length (by simp [List.length_drop]; omega)]
    simp only [tls_new_server_hello, List.length_append, hg34, h0, h1,
      hc1, hc2, hr]
    have hcondA : ¬35 + data.getD 34 0 + 3 > data.length + extra.length := by
      omega
    have hcondB : ¬35 + data.getD 34 0 + 3 > data.length := by omega
    rw [if_neg hcondA, if_neg hcondB]

/-- Witness for C10 at concrete inputs: a 1-byte body is rejected as
EINVAL, and a well-formed 38-byte body with two trailing bytes is handled
exactly like the body without them. -/
theorem C10_server_hello_trailing_witness :
    tls_new_server_hello idEnv initSession [1] =
      (some Err.EINVAL, initSession) ∧
    tls_new_server_hello idEnv initSession
        (([3, 3] ++ List.replicate 32 1 ++ [0] ++ [0, 53] ++ [0]) ++ [9, 9]) =
      tls_new_server_hello idEnv initSession
        ([3, 3] ++ List.replicate 32 1 ++ [0] ++ [0, 53] ++ [0]) :=
  ⟨(C10_server_hello_trailing idEnv initSession [1] []).1 (by decide),
   (C10_server_hello_trailing idEnv initSession
      ([3, 3] ++ List.replicate 32 1 ++ [0] ++ [0, 53] ++ [0]) [9, 9]).2
     (by decide)⟩

/-- `tls_select_cipher` touches only the pending cipher specs: the session
version and the transcript digest selection are preserved. -/
theorem tls_select_cipher_preserves (env : Env) (s : Session) (c : Nat) :
    (tls_select_cipher env s c).2.version = s.version ∧
    (tls_select_cipher env s c).2.hs_digest_sha256 = s.hs_digest_sha256 := by
  simp only [tls_select_cipher]
  cases tls_find_cipher_suite c with
  | none => simp
  | some suite =>
    simp only [tls_set_cipher]
    by_cases h : env.alloc_ok <;> simp [h]

/-- `tls_generate_keys` touches only the pending cipher specs: the session
version and the transcript digest selection are preserved. -/
theorem tls_generate_keys_preserves (env : Env) (s : Session) :
    (tls_generate_keys env s).2.version = s.version ∧
    (tls_generate_keys env s).2.hs_digest_sha256 = s.hs_digest_sha256 := by
  simp only [tls_generate_keys]
  split
  · simp
  · split <;> simp

/-- The ServerHello tail preserves the session version. -/
theorem tls_server_hello_finish_version (env : Env) (s : Session)
    (c : Nat) : (tls_server_hello_finish env s c).2.version = s.version := by
  simp only [tls_server_hello_finish]
  split
  case _ e s1 heq =>
    have hp := tls_select_cipher_preserves env s c
    rw [heq] at hp
    exact hp.1
  case _ s1 heq =>
    have hp := tls_select_cipher_preserves env s c
    rw [heq] at hp
    rw [(tls_generate_keys_preserves env _).1]
    simpa [tls_generate_master_secret] using hp.1

/-- The ServerHello tail preserves the transcript digest selection. -/
theorem tls_server_hello_finish_digest (env : Env) (s : Session) (c : Nat) :
    (tls_server_hello_finish env s c).2.hs_digest_sha256 =
      s.hs_digest_sha256 := by
  simp only [tls_server_hello_finish]
  split
  case _ e s1 heq =>
    have hp := tls_select_cipher_preserves env s c
    rw [heq] at hp
    exact hp.2
  case _ s1 heq =>
    have hp := tls_select_cipher_preserves env s c
    rw [heq] at hp
    rw [(tls_generate_keys_preserves env _).2]
    simpa [tls_generate_master_secret] using hp.2

/-- **C3.** For a ServerHello whose fixed fields fit in the body, carrying
version `v`: `v <` TLS 1.0 fails with ENOTSUP; `v` greater than the current
session version fails with EPROTO; otherwise the session version becomes
`v`, and the running handshake digest is switched to MD5+SHA-1 exactly when
`v <` TLS 1.2 (for `v ≥` 1.2 the SHA-256 transcript stays selected). -/
theorem C3_server_hello_version (env : Env) (s : Session) (data : List Nat)
    (hwf : 35 + data.getD 34 0 + 3 ≤ data.length)
    (hdig : s.hs_digest_sha256 = true) :
    (data.getD 0 0 * 2 ^ 8 + data.getD 1 0 < TLS_VERSION_TLS_1_0 →
      tls_new_server_hello env s data = (some Err.ENOTSUP, s)) ∧
    (TLS_VERSION_TLS_1_0 ≤ data.getD 0 0 * 2 ^ 8 + data.getD 1 0 →
      s.version < data.getD 0 0 * 2 ^ 8 + data.getD 1 0 →
      tls_new_server_hello env s data = (some Err.EPROTO, s)) ∧
    (TLS_VERSION_TLS_1_0 ≤ data.getD 0 0 * 2 ^ 8 + data.getD 1 0 →
      data.getD 0 0 * 2 ^ 8 + data.getD 1 0 ≤ s.version →
      (tls_new_server_hello env s data).2.version =
          data.getD 0 0 * 2 ^ 8 + data.getD 1 0 ∧
        ((tls_new_server_hello env s data).2.hs_digest_sha256 = false ↔
          data.getD 0 0 * 2 ^ 8 + data.getD 1 0 < TLS_VERSION_TLS_1_2)) := by
  have hnot : ¬35 + data.getD 34 0 + 3 > data.length := by omega
  refine ⟨fun h => ?_, fun h1 h2 => ?_, fun h1 h2 => ?_⟩
  · simp only [tls_new_server_hello]
    rw [if_neg hnot, if_pos h]
  · simp only [tls_new_server_hello]
    rw [if_neg hnot, if_neg (by omega), if_pos h2]
  · simp only [tls_new_server_hello]
    rw [if_neg hnot, if_neg (by omega), if_neg (by omega)]
    by_cases hv : data.getD 0 0 * 2 ^ 8 + data.getD 1 0 < TLS_VERSION_TLS_1_2
    · have hv' := hv
      simp only [List.getD_eq_getElem?_getD] at hv'
      rw [if_pos hv, tls_server_hello_finish_version,
        tls_server_hello_finish_digest]
      simp only [Session.hs_digest_sha256, Session.version]
      refine ⟨by simp, by simp; omega⟩
    · have hv' := hv
      simp only [List.getD_eq_getElem?_getD] at hv'
      rw [if_neg hv, tls_server_hello_finish_version,
        tls_server_hello_finish_digest]
      refine ⟨by simp, by simp [hdig]; omega⟩

/-- Witness for C3 at concrete inputs: version 2.0 is rejected ENOTSUP,
version 3.4 (TLS 1.3) is rejected EPROTO, and accepting version 3.2
(TLS 1.1) records it and switches the transcript digest to MD5+SHA-1. -/
theorem C3_server_hello_version_witness :
    tls_new_server_hello idEnv initSession
        ([2, 0] ++ List.replicate 32 0 ++ [0] ++ [0, 53] ++ [0]) =
      (some Err.ENOTSUP, initSession) ∧
    tls_new_server_hello idEnv initSession
        ([3, 4] ++ List.replicate 32 0 ++ [0] ++ [0, 53] ++ [0]) =
      (some Err.EPROTO, initSession) ∧
    (tls_new_server_hello idEnv initSession
        ([3, 2] ++ List.replicate 32 0 ++ [0] ++ [0, 53] ++ [0])).2.version =
      0x0302 ∧
    (tls_new_server_hello idEnv initSession
        ([3, 2] ++ List.replicate 32 0 ++ [0] ++ [0, 53] ++
          [0])).2.hs_digest_sha256 = false :=
  ⟨(C3_server_hello_version idEnv initSession
      ([2, 0] ++ List.replicate 32 0 ++ [0] ++ [0, 53] ++ [0])
      (by decide) rfl).1 (by decide),
   (C3_server_hello_version idEnv initSession
      ([3, 4] ++ List.replicate 32 0 ++ [0] ++ [0, 53] ++ [0])
      (by decide) rfl).2.1 (by decide) (by decide),
   ((C3_server_hello_version idEnv initSession
      ([3, 2] ++ List.replicate 32 0 ++ [0] ++ [0, 53] ++ [0])
      (by decide) rfl).2.2 (by decide) (by decide)).1.trans (by decide),
   ((C3_server_hello_version idEnv initSession
      ([3, 2] ++ List.replicate 32 0 ++ [0] ++ [0, 53] ++ [0])
      (by decide) rfl).2.2 (by decide) (by decide)).2.mpr (by decide)⟩

/-- A `List.any` over a take/drop slice holds exactly when some indexed
element of the underlying list satisfies the predicate. -/
theorem slice_any_iff (l : List Nat) (d t : Nat) (p : Nat → Bool)
    (h : d + t ≤ l.length) :
    ((l.drop d).take t).any p = true ↔
      ∃ i < t, p (l.getD (d + i) 0) = true := by
  rw [List.any_eq_true]
  constructor
  · rintro ⟨x, hx, hpx⟩
    obtain ⟨i, hi⟩ := List.mem_iff_getElem?.mp hx
    rw [List.getElem?_take] at hi
    by_cases hit : i < t
    · rw [if_pos hit, List.getElem?_drop] at hi
      refine ⟨i, hit, ?_⟩
      have hx' : l.getD (d + i) 0 = x := by
        simp [List.getD_eq_getElem?_getD, hi]
      rw [hx']
      exact hpx
    · rw [if_neg hit] at hi
      simp at hi
  · rintro ⟨i, hit, hpi⟩
    refine ⟨l.getD (d + i) 0, ?_, hpi⟩
    rw [List.mem_iff_getElem?]
    refine ⟨i, ?_⟩
    rw [List.getElem?_take, if_pos hit, List.getElem?_drop]
    have hdi : d + i < l.length := by omega
    rw [List.getElem?_eq_getElem hdi, List.getD_eq_getElem l 0 hdi]

/-- **C7.** For a nonempty decrypted block-cipher plaintext, with `pad` the
value of its last byte: the split fails with EINVAL exactly when
`iv_len + mac_len + pad + 1` exceeds the plaintext length or one of the
`pad` padding bytes preceding the final length byte differs from `pad`;
otherwise the returned content is the plaintext with the IV prefix, the
MAC, and the `pad + 1` trailing bytes stripped. -/
theorem C7_split_block_characterisation (s : Session) (pt : List Nat)
    (hne : pt ≠ []) :
    (tls_split_block s pt = .error Err.EINVAL ↔
      (pt.length <
          (if TLS_VERSION_TLS_1_1 ≤ s.version then
            s.rx_cipherspec.suite.blocksize else 0) +
            s.rx_cipherspec.suite.digestsize + pt.getLastD 0 + 1 ∨
        ∃ i < pt.getLastD 0,
          pt.getD (pt.length - 1 - pt.getLastD 0 + i) 0 ≠ pt.getLastD 0)) ∧
    (∀ content mac, tls_split_block s pt = .ok (content, mac) →
      content = (pt.take (pt.length - s.rx_cipherspec.suite.digestsize -
        pt.getLastD 0 - 1)).drop
          (if TLS_VERSION_TLS_1_1 ≤ s.version then
            s.rx_cipherspec.suite.blocksize else 0)) := by
  have hpos : 0 < pt.length := List.length_pos.mpr hne
  simp only [tls_split_block]
  rw [if_neg (by omega)]
  set ivl := (if TLS_VERSION_TLS_1_1 ≤ s.version then
    s.rx_cipherspec.suite.blocksize else 0) with hivl
  set macl := s.rx_cipherspec.suite.digestsize with hmacl
  set pad := pt.getLastD 0 with hpad0
  by_cases hsz : pt.length < ivl + macl + pad + 1
  · rw [if_pos hsz]
    refine ⟨⟨fun _ => Or.inl hsz, fun _ => rfl⟩, ?_⟩
    intro content mac h
    cases h
  · rw [if_neg hsz]
    have hany := slice_any_iff pt (pt.length - 1 - pad) pad
      (fun b => decide (b ≠ pad)) (by omega)
    have harith : ivl + (pt.length - ivl - macl - pad - 1) + macl =
        pt.length - 1 - pad := by omega
    rw [harith]
    by_cases hpad : ((pt.drop (pt.length - 1 - pad)).take pad).any
        (fun b => b ≠ pad) = true
    · rw [if_pos hpad]
      refine ⟨⟨fun _ => Or.inr ?_, fun _ => rfl⟩, ?_⟩
      · obtain ⟨i, hi, hb⟩ := hany.mp hpad
        exact ⟨i, hi, by simpa using hb⟩
      · intro content mac h
        cases h
    · rw [if_neg hpad]
      constructor
      · constructor
        · intro h
          cases h
        · intro h
          rcases h with h | h
          · omega
          · exfalso
            apply hpad
            obtain ⟨i, hi, hb⟩ := h
            exact hany.mpr ⟨i, hi, by simpa using hb⟩
      · intro content mac h
        have hc : content =
            (pt.drop ivl).take (pt.length - ivl - macl - pad - 1) := by
          cases h
          rfl
        have harg : ivl + (pt.length - ivl - macl - pad - 1) =
            pt.length - macl - pad - 1 := by omega
        rw [hc, List.take_drop, harg]

/-- Witness for C7 at concrete inputs: a 37-byte record claiming 255
padding bytes is rejected EINVAL (the spec's bad-pad scenario), and a
well-padded 37-byte record (16-byte IV, empty content, 20-byte MAC, zero
pad length) splits into the empty content. -/
theorem C7_split_block_witness :
    tls_split_block rxAesSession (List.replicate 36 0 ++ [255]) =
      .error Err.EINVAL ∧
    ([] : List Nat) =
      ((List.replicate 16 0 ++ List.replicate 20 7 ++ [0]).take
        ((List.replicate 16 0 ++ List.replicate 20 7 ++ [0]).length -
          rxAesSession.rx_cipherspec.suite.digestsize -
          (List.replicate 16 0 ++ List.replicate 20 7 ++ [0]).getLastD 0 -
          1)).drop
        (if TLS_VERSION_TLS_1_1 ≤ rxAesSession.version then
          rxAesSession.rx_cipherspec.suite.blocksize else 0) :=
  ⟨(C7_split_block_characterisation rxAesSession
      (List.replicate 36 0 ++ [255]) (by decide)).1.mpr (by decide),
   (C7_split_block_characterisation rxAesSession
      (List.replicate 16 0 ++ List.replicate 20 7 ++ [0]) (by decide)).2
     [] (List.replicate 20 7) (by rfl)⟩

/-- **C8.** `tls_send_plaintext` encrypts with a clone of the active TX
cipher context and commits the clone (and increments `tx_seq`) only after
the ciphertext is successfully delivered downstream: on any failure the
active context and `tx_seq` are unchanged; on success `tx_seq` is
incremented and the active context becomes the advanced clone. -/
theorem C8_send_plaintext_commit (env : Env) (s : Session) (ty : Nat)
    (data : List Nat) :
    ((tls_send_plaintext env s ty data).1 ≠ none →
      (tls_send_plaintext env s ty data).2.tx_seq = s.tx_seq ∧
      (tls_send_plaintext env s ty data).2.tx_cipherspec.cipher_ctx =
        s.tx_cipherspec.cipher_ctx) ∧
    ((tls_send_plaintext env s ty data).1 = none →
      (tls_send_plaintext env s ty data).2.tx_seq =
        (s.tx_seq + 1) % 2 ^ 64 ∧
      (tls_send_plaintext env s ty data).2.tx_cipherspec.cipher_ctx =
        (env.encrypt s.tx_cipherspec.cipher_ctx
          (tls_send_assembled env s ty data)).2) := by
  simp only [tls_send_plaintext]
  by_cases ha : env.alloc_ok
  · by_cases hi : env.iob_alloc_ok
    · rcases henc : env.encrypt s.tx_cipherspec.cipher_ctx
        (tls_send_assembled env s ty data) with ⟨ct, ctx2⟩
      cases hd : env.deliver_rc with
      | some e => simp [ha, hi, henc, hd]
      | none => simp [ha, hi, henc, hd]
    · simp [ha, hi]
  · simp [ha]

/-- Witness for C8 at concrete inputs: with a refused delivery neither
`tx_seq` nor the active context moves; with a successful delivery `tx_seq`
is incremented. -/
theorem C8_send_plaintext_commit_witness :
    ((tls_send_plaintext { idEnv with deliver_rc := some Err.ENOTCONN }
        initSession 23 [1]).2.tx_seq = initSession.tx_seq ∧
      (tls_send_plaintext { idEnv with deliver_rc := some Err.ENOTCONN }
        initSession 23 [1]).2.tx_cipherspec.cipher_ctx =
          initSession.tx_cipherspec.cipher_ctx) ∧
    (tls_send_plaintext idEnv initSession 23 [1]).2.tx_seq =
      (initSession.tx_seq + 1) % 2 ^ 64 :=
  ⟨(C8_send_plaintext_commit { idEnv with deliver_rc := some Err.ENOTCONN }
      initSession 23 [1]).1 (by decide),
   ((C8_send_plaintext_commit idEnv initSession 23 [1]).2 (by decide)).1⟩

/-- **C1.** Evaluation of `tls_new_ciphertext` at a failing input: a 37-byte
block record (pass-through decryption, 16-byte IV, empty content, carried
MAC of 20 zero bytes, zero pad) while the HMAC primitive recomputes a MAC
of 20 one bytes.  The recomputed MAC differs from the carried MAC, yet the
function returns rc = 0 (`none`) with the session unchanged — the record's
content is not dispatched, but no PermissionDenied error is raised, so the
session is not closed: the `goto done` on MAC mismatch leaves `rc` holding
the 0 of the successful split.  The claim's required EPERM is exactly what
the C code fails to produce here. -/
theorem C1_mac_mismatch_returns_success :
    tls_hmac { idEnv with hmac := fun _ _ _ => List.replicate 20 1 }
        rxAesSession.rx_cipherspec rxAesSession.rx_seq
        (mkHdr 23 0x0303 0) [] ≠ List.replicate 20 0 ∧
    tls_new_ciphertext
        { idEnv with hmac := fun _ _ _ => List.replicate 20 1 }
        rxAesSession [23, 3, 3, 0, 37]
        (List.replicate 16 0 ++ List.replicate 20 0 ++ [0]) =
      (none, rxAesSession) := by
  constructor
  · decide
  · decide

/-- `tls_send_plaintext` never touches the pending TX cipher spec. -/
theorem tls_send_plaintext_pending (env : Env) (s : Session) (ty : Nat)
    (data : List Nat) :
    (tls_send_plaintext env s ty data).2.tx_cipherspec_pending =
      s.tx_cipherspec_pending := by
  simp only [tls_send_plaintext]
  by_cases ha : env.alloc_ok
  · by_cases hi : env.iob_alloc_ok
    · rcases henc : env.encrypt s.tx_cipherspec.cipher_ctx
        (tls_send_assembled env s ty data) with ⟨ct, ctx2⟩
      cases hd : env.deliver_rc <;> simp [ha, hi, henc, hd]
    · simp [ha, hi]
  · simp [ha]

/-- **C2.** After a ChangeCipherSpec completes in either direction, the
next record in that direction is numbered 0.  (TX) When ChangeCipherSpec is
the first pending transmission and it is delivered successfully, the TX
step swaps the pending TX spec to active and sets `tx_seq = 0`.  (RX) A
valid received ChangeCipherSpec swaps the pending RX spec to active and
sets `rx_seq = 2^64 − 1`; the record-processing wrapper then increments
`rx_seq` unconditionally modulo `2^64`, wrapping it to 0. -/
theorem C2_ccs_resets_sequence (env : Env) (sends : TxSends) (s : Session) :
    (env.window ≠ 0 →
      s.tx_pending &&& TLS_TX_CLIENT_HELLO = 0 →
      s.tx_pending &&& TLS_TX_CERTIFICATE = 0 →
      s.tx_pending &&& TLS_TX_CLIENT_KEY_EXCHANGE = 0 →
      s.tx_pending &&& TLS_TX_CERTIFICATE_VERIFY = 0 →
      s.tx_pending &&& TLS_TX_CHANGE_CIPHER ≠ 0 →
      (tls_send_change_cipher env s).1 = none →
      s.tx_cipherspec_pending.suite.isNull = false →
      (tls_tx_step env sends s).1 = none ∧
      (tls_tx_step env sends s).2.tx_seq = 0 ∧
      (tls_tx_step env sends s).2.tx_cipherspec = s.tx_cipherspec_pending ∧
      (tls_tx_step env sends s).2.tx_cipherspec_pending =
        clearedCipherSpec) ∧
    (s.rx_cipherspec_pending.suite.isNull = false →
      tls_new_change_cipher s [1] =
        (none, { s with
                 rx_cipherspec_pending := clearedCipherSpec,
                 rx_cipherspec := s.rx_cipherspec_pending,
                 rx_seq := 2 ^ 64 - 1 })) ∧
    (∀ s1, tls_new_ciphertext env s s.rx_header s.rx_data = (none, s1) →
      (tls_newdata_process_data env s).1 = none ∧
      (tls_newdata_process_data env s).2.rx_seq =
        (s1.rx_seq + 1) % 2 ^ 64 ∧
      (s1.rx_seq = 2 ^ 64 - 1 →
        (tls_newdata_process_data env s).2.rx_seq = 0)) := by
  refine ⟨fun hw h1 h2 h3 h4 h5 hrc hnull => ?_, fun hnull => ?_,
    fun s1 hok => ?_⟩
  · rcases hsend : tls_send_change_cipher env s with ⟨rc, s'⟩
    rw [hsend] at hrc
    simp only at hrc
    subst hrc
    have hpend : s'.tx_cipherspec_pending = s.tx_cipherspec_pending := by
      have hp := tls_send_plaintext_pending env s TLS_TYPE_CHANGE_CIPHER [1]
      rw [show tls_send_plaintext env s TLS_TYPE_CHANGE_CIPHER [1] =
        tls_send_change_cipher env s from rfl, hsend] at hp
      exact hp
    simp only [tls_tx_step]
    rw [if_neg hw, if_neg (not_ne_iff.mpr h1), if_neg (not_ne_iff.mpr h2),
      if_neg (not_ne_iff.mpr h3), if_neg (not_ne_iff.mpr h4), if_pos h5,
      hsend]
    simp only [tls_change_cipher, hpend]
    rw [if_neg (by simp [hnull])]
    simp
  · simp only [tls_new_change_cipher]
    rw [if_neg (by simp), if_neg (by simp)]
    simp only [tls_change_cipher]
    rw [if_neg (by simp [hnull])]
  · simp only [tls_newdata_process_data]
    rw [hok]
    refine ⟨rfl, rfl, fun hseq => ?_⟩
    simp [hseq]

/-- Witness for C2 at concrete inputs: a TX step with only ChangeCipherSpec
pending ends with `tx_seq = 0`; a received ChangeCipherSpec sets `rx_seq`
to `2^64 − 1`; and processing a ChangeCipherSpec record through the record
pipeline leaves `rx_seq = 0` after the unconditional increment. -/
theorem C2_ccs_resets_sequence_witness :
    (tls_tx_step idEnv
        { send_client_hello := fun s => (none, s),
          send_certificate := fun s => (none, s),
          send_client_key_exchange := fun s => (none, s),
          send_certificate_verify := fun s => (none, s) }
        { initSession with
          tx_pending := TLS_TX_CHANGE_CIPHER,
          tx_cipherspec_pending :=
            rxAesSession.rx_cipherspec }).2.tx_seq = 0 ∧
    (tls_new_change_cipher
        { initSession with
          rx_cipherspec_pending :=
            rxAesSession.rx_cipherspec } [1]).2.rx_seq = 2 ^ 64 - 1 ∧
    (tls_newdata_process_data idEnv
        { initSession with
          rx_header := [20, 3, 3, 0, 1], rx_data := [1],
          rx_cipherspec_pending :=
            rxAesSession.rx_cipherspec }).2.rx_seq = 0 := by
  refine ⟨?_, ?_, ?_⟩
  · exact ((C2_ccs_resets_sequence idEnv
      { send_client_hello := fun s => (none, s),
        send_certificate := fun s => (none, s),
        send_client_key_exchange := fun s => (none, s),
        send_certificate_verify := fun s => (none, s) }
      { initSession with
        tx_pending := TLS_TX_CHANGE_CIPHER,
        tx_cipherspec_pending := rxAesSession.rx_cipherspec }).1
      (by decide) (by decide) (by decide) (by decide) (by decide)
      (by decide) (by decide) (by decide)).2.1
  · rw [(C2_ccs_resets_sequence idEnv
      { send_client_hello := fun s => (none, s),
        send_certificate := fun s => (none, s),
        send_client_key_exchange := fun s => (none, s),
        send_certificate_verify := fun s => (none, s) }
      { initSession with
        rx_cipherspec_pending :=
          rxAesSession.rx_cipherspec }).2.1 (by decide)]
  · exact ((C2_ccs_resets_sequence idEnv
      { send_client_hello := fun s => (none, s),
        send_certificate := fun s => (none, s),
        send_client_key_exchange := fun s => (none, s),
        send_certificate_verify := fun s => (none, s) }
      { initSession with
        rx_header := [20, 3, 3, 0, 1], rx_data := [1],
        rx_cipherspec_pending := rxAesSession.rx_cipherspec }).2.2
      (tls_new_ciphertext idEnv
        { initSession with
          rx_header := [20, 3, 3, 0, 1], rx_data := [1],
          rx_cipherspec_pending := rxAesSession.rx_cipherspec }
        [20, 3, 3, 0, 1] [1]).2
      (Prod.ext (by decide) rfl)).2.2 (by decide)

/-- The P_hash output loop produces exactly `out_len` bytes when the HMAC
primitive produces digests of `dsz1 + 1` bytes. -/
theorem tls_p_hash_length (hmac : List Nat → List Nat) (dsz1 : Nat)
    (seed : List Nat) (hlen : ∀ m, (hmac m).length = dsz1 + 1) :
    ∀ fuel out_len a, out_len ≤ fuel →
      (tls_p_hash hmac dsz1 seed fuel out_len a).length = out_len := by
  intro fuel
  induction fuel with
  | zero => intro out_len a h; interval_cases out_len; rfl
  | succ f ih =>
    intro out_len a h
    match out_len with
    | 0 => rfl
    | m + 1 =>
      simp only [tls_p_hash]
      rw [if_neg (by omega)]
      simp only [List.length_append, List.length_take, hlen]
      rw [ih (m + 1 - min (dsz1 + 1) (m + 1)) (hmac a) (by omega)]
      omega

/-- The code-shaped P_hash loop started at `A(k)` equals the spec-shaped
P_hash (concatenated `HMAC(secret, A(i) ++ seed)` blocks, truncated),
provided the HMAC primitive produces `dsz1 + 1`-byte digests, the block
count covers `out_len`, and the fuel is at least `out_len`. -/
theorem tls_p_hash_eq_spec (hmac : List Nat → List Nat) (dsz1 : Nat)
    (seed : List Nat) (hlen : ∀ m, (hmac m).length = dsz1 + 1) :
    ∀ n k fuel out_len, out_len ≤ n * (dsz1 + 1) → out_len ≤ fuel →
      tls_p_hash hmac dsz1 seed fuel out_len (p_hash_A hmac seed k) =
        (List.flatten ((List.range n).map
          (fun i => hmac (p_hash_A hmac seed (k + i) ++ seed)))).take
          out_len := by
  intro n
  induction n with
  | zero =>
    intro k fuel out_len hn hf
    have h0 : out_len = 0 := by omega
    subst h0
    cases fuel <;> simp [tls_p_hash]
  | succ n ih =>
    intro k fuel out_len hn hf
    match out_len, hf with
    | 0, _ => cases fuel <;> simp [tls_p_hash]
    | m + 1, hf =>
      match fuel, hf with
      | f + 1, hf =>
        simp only [tls_p_hash]
        rw [if_neg (by omega)]
        rw [List.range_succ_eq_map, List.map_cons, List.flatten_cons,
          List.take_append_eq_append_take, hlen]
        have hhead : (hmac (p_hash_A hmac seed k ++ seed)).take
            (min (dsz1 + 1) (m + 1)) =
            (hmac (p_hash_A hmac seed k ++ seed)).take (m + 1) := by
          rw [List.take_eq_take, hlen]
          omega
        have htail : (List.map Nat.succ (List.range n)).map
            (fun i => hmac (p_hash_A hmac seed (k + i) ++ seed)) =
            (List.range n).map
              (fun i => hmac (p_hash_A hmac seed (k + 1 + i) ++ seed)) := by
          rw [List.map_map]
          refine List.map_congr_left fun i _ => ?_
          have harg : k + Nat.succ i = k + 1 + i := by omega
          simp [Function.comp, harg]
        rw [htail]
        have hA : hmac (p_hash_A hmac seed k) = p_hash_A hmac seed (k + 1) :=
          rfl
        have hmul : (n + 1) * (dsz1 + 1) = n * (dsz1 + 1) + (dsz1 + 1) := by
          ring
        rw [hA, ih (k + 1) f (m + 1 - min (dsz1 + 1) (m + 1)) (by omega)
          (by omega)]
        simp only [Nat.add_zero]
        have hsub : m + 1 - min (dsz1 + 1) (m + 1) = m + 1 - (dsz1 + 1) := by
          omega
        rw [hsub, hhead]

/-- **C4.** The PRF dispatches on the negotiated version: for version ≥ 1.2
the output is P_SHA256(secret, label ‖ seed) truncated to `out_len`; for
earlier versions the secret is split into two sub-secrets of
`⌈secret_len/2⌉` bytes (first half for MD5, last half for SHA-1,
overlapping by at most one byte) and the output is
P_MD5(S1, label ‖ seed) XOR P_SHA1(S2, label ‖ seed). -/
theorem C4_prf_dispatch (env : Env) (version : Nat) (secret : List Nat)
    (out_len : Nat) (label : String) (seed : List Nat)
    (hmd5 : ∀ key m, (env.hmac DIGEST_MD5 key m).length = 16)
    (hsha1 : ∀ key m, (env.hmac DIGEST_SHA1 key m).length = 20)
    (hsha256 : ∀ key m, (env.hmac DIGEST_SHA256 key m).length = 32) :
    (TLS_VERSION_TLS_1_2 ≤ version →
      tls_prf_label env version secret out_len label seed =
        p_hash_spec (env.hmac DIGEST_SHA256 secret)
          (strBytes label ++ seed) ((out_len + 31) / 32) out_len) ∧
    (version < TLS_VERSION_TLS_1_2 →
      tls_prf_label env version secret out_len label seed =
        List.zipWith (fun x y => x ^^^ y)
          (p_hash_spec
            (env.hmac DIGEST_MD5 (secret.take ((secret.length + 1) / 2)))
            (strBytes label ++ seed) ((out_len + 15) / 16) out_len)
          (p_hash_spec
            (env.hmac DIGEST_SHA1
              (secret.drop (secret.length - (secret.length + 1) / 2)))
            (strBytes label ++ seed) ((out_len + 19) / 20) out_len)) := by
  have hspec : ∀ (hmac : List Nat → List Nat) (dsz1 : Nat)
      (sd : List Nat) (n : Nat), (∀ m, (hmac m).length = dsz1 + 1) →
      out_len ≤ n * (dsz1 + 1) →
      tls_p_hash_va hmac dsz1 sd out_len = p_hash_spec hmac sd n out_len := by
    intro hmac dsz1 sd n hl hn
    have h := tls_p_hash_eq_spec hmac dsz1 sd hl n 1 out_len out_len hn
      (le_refl _)
    have hA1 : p_hash_A hmac sd 1 = hmac sd := rfl
    rw [hA1] at h
    rw [tls_p_hash_va, h, p_hash_spec]
    congr 2
    refine List.map_congr_left fun i _ => ?_
    have : 1 + i = i + 1 := by omega
    rw [this]
  constructor
  · intro hv
    simp only [tls_prf_label, tls_prf]
    rw [if_pos hv]
    exact hspec _ 31 _ _ (hsha256 secret) (by omega)
  · intro hv
    simp only [tls_prf_label, tls_prf]
    rw [if_neg (by omega)]
    rw [hspec _ 15 _ ((out_len + 15) / 16) (hmd5 _) (by omega),
      hspec _ 19 _ ((out_len + 19) / 20) (hsha1 _) (by omega)]

/-- Witness for C4 at concrete inputs (the spec's PRF scenario: secret
0x01 0x02, label "test label", seed 0x03), under an HMAC primitive with
the correct digest sizes, at both a 1.2 and a 1.0 version. -/
theorem C4_prf_dispatch_witness :
    tls_prf_label prfEnv 0x0303 [1, 2] 5 "test label" [3] =
      p_hash_spec (prfEnv.hmac DIGEST_SHA256 [1, 2])
        (strBytes "test label" ++ [3]) ((5 + 31) / 32) 5 ∧
    tls_prf_label prfEnv 0x0301 [1, 2] 5 "test label" [3] =
      List.zipWith (fun x y => x ^^^ y)
        (p_hash_spec
          (prfEnv.hmac DIGEST_MD5 (([1, 2] : List Nat).take
            ((([1, 2] : List Nat).length + 1) / 2)))
          (strBytes "test label" ++ [3]) ((5 + 15) / 16) 5)
        (p_hash_spec
          (prfEnv.hmac DIGEST_SHA1 (([1, 2] : List Nat).drop
            (([1, 2] : List Nat).length +
              1 - (([1, 2] : List Nat).length + 1) / 2 - 1)))
          (strBytes "test label" ++ [3]) ((5 + 19) / 20) 5) :=
  ⟨(C4_prf_dispatch prfEnv 0x0303 [1, 2] 5 "test label" [3]
      (fun _ _ => rfl) (fun _ _ => rfl) (fun _ _ => rfl)).1 (by decide),
   (C4_prf_dispatch prfEnv 0x0301 [1, 2] 5 "test label" [3]
      (fun _ _ => rfl) (fun _ _ => rfl) (fun _ _ => rfl)).2 (by decide)⟩

/-- The PRF produces exactly `out_len` bytes when the HMAC primitives
produce digests of their nominal sizes. -/
theorem tls_prf_length (env : Env) (version : Nat) (secret : List Nat)
    (out_len : Nat) (seed : List Nat)
    (hmd5 : ∀ key m, (env.hmac DIGEST_MD5 key m).length = 16)
    (hsha1 : ∀ key m, (env.hmac DIGEST_SHA1 key m).length = 20)
    (hsha256 : ∀ key m, (env.hmac DIGEST_SHA256 key m).length = 32) :
    (tls_prf env version secret out_len seed).length = out_len := by
  simp only [tls_prf]
  split
  · simp only [tls_p_hash_va]
    exact tls_p_hash_length _ 31 _ (hsha256 secret) out_len out_len _
      (le_refl _)
  · rw [List.length_zipWith]
    simp only [tls_p_hash_va]
    rw [tls_p_hash_length _ 15 _ (hmd5 _) out_len out_len _ (le_refl _),
      tls_p_hash_length _ 19 _ (hsha1 _) out_len out_len _ (le_refl _)]
    exact Nat.min_self out_len

/-- Splitting a list into six contiguous take/drop slices whose lengths
cover it exactly reassembles the list. -/
theorem list_six_slices (l : List Nat) (a b c d e f : Nat)
    (hlen : l.length = a + b + c + d + e + f) :
    l.take a ++ ((l.drop a).take b ++ ((l.drop (a + b)).take c ++
      ((l.drop (a + b + c)).take d ++ ((l.drop (a + b + c + d)).take e ++
        (l.drop (a + b + c + d + e)).take f)))) = l := by
  have d2 : (l.drop a).drop b = l.drop (a + b) := List.drop_drop b a l
  have d3 : (l.drop (a + b)).drop c = l.drop (a + b + c) :=
    List.drop_drop c (a + b) l
  have d4 : (l.drop (a + b + c)).drop d = l.drop (a + b + c + d) :=
    List.drop_drop d (a + b + c) l
  have d5 : (l.drop (a + b + c + d)).drop e = l.drop (a + b + c + d + e) :=
    List.drop_drop e (a + b + c + d) l
  have h5 : (l.drop (a + b + c + d + e)).take f =
      l.drop (a + b + c + d + e) := by
    apply List.take_of_length_le
    simp only [List.length_drop]
    omega
  rw [h5]
  conv_rhs => rw [← List.take_append_drop a l]
  congr 1
  conv_rhs => rw [← List.take_append_drop b (l.drop a)]
  rw [d2]
  congr 1
  conv_rhs => rw [← List.take_append_drop c (l.drop (a + b))]
  rw [d3]
  congr 1
  conv_rhs => rw [← List.take_append_drop d (l.drop (a + b + c))]
  rw [d4]
  congr 1
  conv_rhs => rw [← List.take_append_drop e (l.drop (a + b + c + d))]
  rw [d5]

/-- **C5.** Key derivation computes a key block of exactly
`2*(digest_size + key_size + iv_size)` bytes via the PRF with label
"key expansion" and seed server_random ‖ client_random, and slices it in
order into TX MAC secret, RX MAC secret, TX key, RX key, TX IV and RX IV,
installing the TX portions into the pending TX cipher spec and the RX
portions into the pending RX cipher spec. -/
theorem C5_key_derivation (env : Env) (s : Session) (kb : List Nat)
    (hkb : kb = tls_prf_label env s.version s.master_secret
      (2 * (s.tx_cipherspec_pending.suite.digestsize +
        s.tx_cipherspec_pending.suite.keyLen +
        s.tx_cipherspec_pending.suite.blocksize)) "key expansion"
      (s.server_random ++ s.client_random))
    (hmd5 : ∀ key m, (env.hmac DIGEST_MD5 key m).length = 16)
    (hsha1 : ∀ key m, (env.hmac DIGEST_SHA1 key m).length = 20)
    (hsha256 : ∀ key m, (env.hmac DIGEST_SHA256 key m).length = 32)
    (hsetkey : ∀ ctx k, (env.setkey ctx k).1 = none) :
    (tls_generate_keys env s).1 = none ∧
    kb.length = 2 * (s.tx_cipherspec_pending.suite.digestsize +
      s.tx_cipherspec_pending.suite.keyLen +
      s.tx_cipherspec_pending.suite.blocksize) ∧
    (tls_generate_keys env s).2.tx_cipherspec_pending.mac_secret =
      kb.take s.tx_cipherspec_pending.suite.digestsize ∧
    (tls_generate_keys env s).2.rx_cipherspec_pending.mac_secret =
      (kb.drop s.tx_cipherspec_pending.suite.digestsize).take
        s.tx_cipherspec_pending.suite.digestsize ∧
    (tls_generate_keys env s).2.tx_cipherspec_pending.cipher_ctx =
      env.setiv
        (env.setkey s.tx_cipherspec_pending.cipher_ctx
          ((kb.drop (2 * s.tx_cipherspec_pending.suite.digestsize)).take
            s.tx_cipherspec_pending.suite.keyLen)).2
        ((kb.drop (2 * s.tx_cipherspec_pending.suite.digestsize +
          2 * s.tx_cipherspec_pending.suite.keyLen)).take
          s.tx_cipherspec_pending.suite.blocksize) ∧
    (tls_generate_keys env s).2.rx_cipherspec_pending.cipher_ctx =
      env.setiv
        (env.setkey s.rx_cipherspec_pending.cipher_ctx
          ((kb.drop (2 * s.tx_cipherspec_pending.suite.digestsize +
            s.tx_cipherspec_pending.suite.keyLen)).take
            s.tx_cipherspec_pending.suite.keyLen)).2
        ((kb.drop (2 * s.tx_cipherspec_pending.suite.digestsize +
          2 * s.tx_cipherspec_pending.suite.keyLen +
          s.tx_cipherspec_pending.suite.blocksize)).take
          s.tx_cipherspec_pending.suite.blocksize) ∧
    kb.take s.tx_cipherspec_pending.suite.digestsize ++
      (((kb.drop s.tx_cipherspec_pending.suite.digestsize).take
        s.tx_cipherspec_pending.suite.digestsize) ++
      (((kb.drop (2 * s.tx_cipherspec_pending.suite.digestsize)).take
        s.tx_cipherspec_pending.suite.keyLen) ++
      (((kb.drop (2 * s.tx_cipherspec_pending.suite.digestsize +
        s.tx_cipherspec_pending.suite.keyLen)).take
        s.tx_cipherspec_pending.suite.keyLen) ++
      (((kb.drop (2 * s.tx_cipherspec_pending.suite.digestsize +
        2 * s.tx_cipherspec_pending.suite.keyLen)).take
        s.tx_cipherspec_pending.suite.blocksize) ++
      ((kb.drop (2 * s.tx_cipherspec_pending.suite.digestsize +
        2 * s.tx_cipherspec_pending.suite.keyLen +
        s.tx_cipherspec_pending.suite.blocksize)).take
        s.tx_cipherspec_pending.suite.blocksize))))) = kb := by
  have hlen : kb.length = 2 * (s.tx_cipherspec_pending.suite.digestsize +
      s.tx_cipherspec_pending.suite.keyLen +
      s.tx_cipherspec_pending.suite.blocksize) := by
    rw [hkb, tls_prf_label]
    exact tls_prf_length env _ _ _ _ hmd5 hsha1 hsha256
  have hconcat := list_six_slices kb
    s.tx_cipherspec_pending.suite.digestsize
    s.tx_cipherspec_pending.suite.digestsize
    s.tx_cipherspec_pending.suite.keyLen
    s.tx_cipherspec_pending.suite.keyLen
    s.tx_cipherspec_pending.suite.blocksize
    s.tx_cipherspec_pending.suite.blocksize (by omega)
  have e2 : s.tx_cipherspec_pending.suite.digestsize +
      s.tx_cipherspec_pending.suite.digestsize =
      2 * s.tx_cipherspec_pending.suite.digestsize := by ring
  have e3 : 2 * s.tx_cipherspec_pending.suite.digestsize +
      s.tx_cipherspec_pending.suite.keyLen +
      s.tx_cipherspec_pending.suite.keyLen =
      2 * s.tx_cipherspec_pending.suite.digestsize +
      2 * s.tx_cipherspec_pending.suite.keyLen := by ring
  rw [e2] at hconcat
  rw [e3] at hconcat
  have hmain : tls_generate_keys env s = (none,
      { s with
        tx_cipherspec_pending := { s.tx_cipherspec_pending with
          mac_secret :=
            kb.take s.tx_cipherspec_pending.suite.digestsize,
          cipher_ctx := env.setiv
            (env.setkey s.tx_cipherspec_pending.cipher_ctx
              ((kb.drop
                (2 * s.tx_cipherspec_pending.suite.digestsize)).take
                s.tx_cipherspec_pending.suite.keyLen)).2
            ((kb.drop (2 * s.tx_cipherspec_pending.suite.digestsize +
              2 * s.tx_cipherspec_pending.suite.keyLen)).take
              s.tx_cipherspec_pending.suite.blocksize) },
        rx_cipherspec_pending := { s.rx_cipherspec_pending with
          mac_secret :=
            (kb.drop s.tx_cipherspec_pending.suite.digestsize).take
              s.tx_cipherspec_pending.suite.digestsize,
          cipher_ctx := env.setiv
            (env.setkey s.rx_cipherspec_pending.cipher_ctx
              ((kb.drop
                (2 * s.tx_cipherspec_pending.suite.digestsize +
                  s.tx_cipherspec_pending.suite.keyLen)).take
                s.tx_cipherspec_pending.suite.keyLen)).2
            ((kb.drop (2 * s.tx_cipherspec_pending.suite.digestsize +
              2 * s.tx_cipherspec_pending.suite.keyLen +
              s.tx_cipherspec_pending.suite.blocksize)).take
              s.tx_cipherspec_pending.suite.blocksize) } }) := by
    simp only [tls_generate_keys, ← hkb]
    split
    case _ e ctx' heq =>
      have h1 := congrArg Prod.fst heq
      rw [hsetkey] at h1
      simp at h1
    case _ ctx1 heq =>
      split
      case _ e ctx' heq2 =>
        have h1 := congrArg Prod.fst heq2
        rw [hsetkey] at h1
        simp at h1
      case _ ctx2 heq2 =>
        have c1 : (env.setkey s.tx_cipherspec_pending.cipher_ctx
            ((kb.drop (2 * s.tx_cipherspec_pending.suite.digestsize)).take
              s.tx_cipherspec_pending.suite.keyLen)).2 = ctx1 := by
          rw [heq]
        have c2 : (env.setkey s.rx_cipherspec_pending.cipher_ctx
            ((kb.drop (2 * s.tx_cipherspec_pending.suite.digestsize +
              s.tx_cipherspec_pending.suite.keyLen)).take
              s.tx_cipherspec_pending.suite.keyLen)).2 = ctx2 := by
          rw [heq2]
        rw [c1, c2]
  refine ⟨by simp [hmain], hlen, by simp [hmain], by simp [hmain],
    by simp [hmain], by simp [hmain], hconcat⟩

/-- Witness for C5 at a concrete session whose pending specs carry the
AES-128-CBC-SHA suite: key generation succeeds and the key block has the
required `2*(20+16+16)` length. -/
theorem C5_key_derivation_witness :
    (tls_generate_keys prfEnv
      { initSession with
        tx_cipherspec_pending := rxAesSession.rx_cipherspec,
        rx_cipherspec_pending := rxAesSession.rx_cipherspec }).1 = none ∧
    (tls_prf_label prfEnv
      ({ initSession with
         tx_cipherspec_pending := rxAesSession.rx_cipherspec,
         rx_cipherspec_pending :=
           rxAesSession.rx_cipherspec } : Session).version
      ({ initSession with
         tx_cipherspec_pending := rxAesSession.rx_cipherspec,
         rx_cipherspec_pending :=
           rxAesSession.rx_cipherspec } : Session).master_secret
      (2 * (20 + 16 + 16)) "key expansion"
      (({ initSession with
          tx_cipherspec_pending := rxAesSession.rx_cipherspec,
          rx_cipherspec_pending :=
            rxAesSession.rx_cipherspec } : Session).server_random ++
        ({ initSession with
           tx_cipherspec_pending := rxAesSession.rx_cipherspec,
           rx_cipherspec_pending :=
             rxAesSession.rx_cipherspec } : Session).client_random)).length =
      2 * (20 + 16 + 16) := by
  have h := C5_key_derivation prfEnv
    { initSession with
      tx_cipherspec_pending := rxAesSession.rx_cipherspec,
      rx_cipherspec_pending := rxAesSession.rx_cipherspec } _ rfl
    (fun _ _ => rfl) (fun _ _ => rfl) (fun _ _ => rfl) (fun _ _ => rfl)
  exact ⟨h.1, h.2.1⟩

/-- `tls_select_cipher` leaves both transcript contexts unchanged. -/
theorem tls_select_cipher_hs (env : Env) (s : Session) (c : Nat) :
    (tls_select_cipher env s c).2.hs_md5sha1_ctx = s.hs_md5sha1_ctx ∧
    (tls_select_cipher env s c).2.hs_sha256_ctx = s.hs_sha256_ctx := by
  simp only [tls_select_cipher]
  cases tls_find_cipher_suite c with
  | none => simp
  | some suite =>
    simp only [tls_set_cipher]
    by_cases h : env.alloc_ok <;> simp [h]

/-- `tls_generate_keys` leaves both transcript contexts unchanged. -/
theorem tls_generate_keys_hs (env : Env) (s : Session) :
    (tls_generate_keys env s).2.hs_md5sha1_ctx = s.hs_md5sha1_ctx ∧
    (tls_generate_keys env s).2.hs_sha256_ctx = s.hs_sha256_ctx := by
  simp only [tls_generate_keys]
  split
  · simp
  · split <;> simp

/-- The ServerHello tail leaves the MD5+SHA-1 transcript unchanged. -/
theorem tls_server_hello_finish_md5 (env : Env) (s : Session) (c : Nat) :
    (tls_server_hello_finish env s c).2.hs_md5sha1_ctx =
      s.hs_md5sha1_ctx := by
  simp only [tls_server_hello_finish]
  split
  case _ e s1 heq =>
    have hp := tls_select_cipher_hs env s c
    rw [heq] at hp
    exact hp.1
  case _ s1 heq =>
    have hp := tls_select_cipher_hs env s c
    rw [heq] at hp
    rw [(tls_generate_keys_hs env _).1]
    simpa [tls_generate_master_secret] using hp.1

/-- The ServerHello tail leaves the SHA-256 transcript unchanged. -/
theorem tls_server_hello_finish_sha (env : Env) (s : Session) (c : Nat) :
    (tls_server_hello_finish env s c).2.hs_sha256_ctx =
      s.hs_sha256_ctx := by
  simp only [tls_server_hello_finish]
  split
  case _ e s1 heq =>
    have hp := tls_select_cipher_hs env s c
    rw [heq] at hp
    exact hp.2
  case _ s1 heq =>
    have hp := tls_select_cipher_hs env s c
    rw [heq] at hp
    rw [(tls_generate_keys_hs env _).2]
    simpa [tls_generate_master_secret] using hp.2

/-- No handshake message handler touches the transcript contexts (the
Certificate handler is constrained by hypothesis, as its body belongs to
the external X.509 collaborator). -/
theorem tls_handshake_dispatch_hs (env : Env)
    (hcert : ∀ t d, (env.new_certificate t d).2.hs_md5sha1_ctx =
      t.hs_md5sha1_ctx ∧
      (env.new_certificate t d).2.hs_sha256_ctx = t.hs_sha256_ctx)
    (s : Session) (ty : Nat) (payload : List Nat) :
    (tls_handshake_dispatch env s ty payload).2.hs_md5sha1_ctx =
      s.hs_md5sha1_ctx ∧
    (tls_handshake_dispatch env s ty payload).2.hs_sha256_ctx =
      s.hs_sha256_ctx := by
  simp only [tls_handshake_dispatch]
  split
  · simp only [tls_new_server_hello]
    split
    · simp
    · split
      · simp
      · split
        · simp
        · split <;>
          · constructor
            · rw [tls_server_hello_finish_md5]
            · rw [tls_server_hello_finish_sha]
  · split
    · exact hcert s payload
    · split
      · simp [tls_new_certificate_request]
      · split
        · simp only [tls_new_server_hello_done]
          split <;> simp
        · split
          · simp only [tls_new_finished, tls_verify_handshake]
            split
            · simp
            · split <;> split <;> simp
          · simp

/-- A defaulted read from a list of bytes is a byte. -/
theorem getD_lt_of_bytes (data : List Nat) (i : Nat)
    (hb : ∀ b ∈ data, b < 256) : data.getD i 0 < 256 := by
  by_cases h : i < data.length
  · refine hb _ ?_
    rw [List.getD_eq_getElem data 0 h]
    exact List.getElem_mem h
  · rw [List.getD_eq_default data 0 (by omega)]
    omega

/-- On byte data, the aliased 24-bit read used by the handshake loop
computes the big-endian value of bytes 1..3 (the fourth byte of the 32-bit
load is shifted out). -/
theorem tls_uint24_bytes (data : List Nat) (hb : ∀ b ∈ data, b < 256) :
    tls_uint24 (data.drop 1) (data.getD 4 0) =
      data.getD 1 0 * 2 ^ 16 + data.getD 2 0 * 2 ^ 8 + data.getD 3 0 := by
  have h4 : data.getD 4 0 < 256 := getD_lt_of_bytes data 4 hb
  have e0 : (data.drop 1).getD 0 0 = data.getD 1 0 := by
    simp [List.getD_eq_getElem?_getD, List.getElem?_drop]
  have e1 : (data.drop 1).getD 1 0 = data.getD 2 0 := by
    simp [List.getD_eq_getElem?_getD, List.getElem?_drop]
  have e2 : (data.drop 1).getD 2 0 = data.getD 3 0 := by
    simp [List.getD_eq_getElem?_getD, List.getElem?_drop]
  simp only [tls_uint24, e0, e1, e2]
  omega

/-- The handshake message loop appends exactly the non-HelloRequest
messages of the record, in order, to both running transcript contexts. -/
theorem handshake_loop_transcript (env : Env)
    (hcert : ∀ t d, (env.new_certificate t d).2.hs_md5sha1_ctx =
      t.hs_md5sha1_ctx ∧
      (env.new_certificate t d).2.hs_sha256_ctx = t.hs_sha256_ctx) :
    ∀ fuel (s : Session) (data : List Nat) (msgs : List (Nat × List Nat))
      (s' : Session), (∀ b ∈ data, b < 256) →
      parseHandshakesF fuel data = some msgs →
      tls_new_handshake_loop env fuel s data = (none, s') →
      s'.hs_md5sha1_ctx = List.foldl env.md5sha1_update s.hs_md5sha1_ctx
        ((msgs.filter (fun m => m.1 != TLS_HELLO_REQUEST)).map Prod.snd) ∧
      s'.hs_sha256_ctx = List.foldl env.sha256_update s.hs_sha256_ctx
        ((msgs.filter (fun m => m.1 != TLS_HELLO_REQUEST)).map Prod.snd) := by
  intro fuel
  induction fuel with
  | zero =>
    intro s data msgs s' hb hp hl
    simp only [parseHandshakesF, Option.some.injEq] at hp
    simp only [tls_new_handshake_loop, Prod.mk.injEq, true_and] at hl
    subst hp
    subst hl
    simp
  | succ f ih =>
    intro s data msgs s' hb hp hl
    by_cases hnil : data = []
    · subst hnil
      simp [parseHandshakesF] at hp
      simp [tls_new_handshake_loop] at hl
      subst hp
      subst hl
      simp
    · have hlen_eq := tls_uint24_bytes data hb
      simp only [parseHandshakesF, if_neg hnil] at hp
      simp only [tls_new_handshake_loop, if_neg hnil, hlen_eq] at hl
      set L := data.getD 1 0 * 2 ^ 16 + data.getD 2 0 * 2 ^ 8 +
        data.getD 3 0 with hLdef
      by_cases hover : 4 + L > data.length
      · rw [if_pos hover] at hp
        simp at hp
      · rw [if_neg hover] at hp hl
        rcases hrest : parseHandshakesF f (data.drop (4 + L)) with _ | rest
        · rw [hrest] at hp
          simp at hp
        · rw [hrest] at hp
          simp only [Option.some.injEq] at hp
          subst hp
          rcases hr : tls_handshake_dispatch env s (data.getD 0 0)
            ((data.drop 4).take L) with ⟨rc, s1⟩
          rw [hr] at hl
          have hbytes' : ∀ b ∈ data.drop (4 + L), b < 256 :=
            fun b hbm => hb b (List.mem_of_mem_drop hbm)
          have hdisp0 := tls_handshake_dispatch_hs env hcert s
            (data.getD 0 0) ((data.drop 4).take L)
          rw [hr] at hdisp0
          have hdisp : s1.hs_md5sha1_ctx = s.hs_md5sha1_ctx ∧
              s1.hs_sha256_ctx = s.hs_sha256_ctx := hdisp0
          cases rc with
          | some e => simp at hl
          | none =>
            simp only at hl
            by_cases hty : data.getD 0 0 ≠ TLS_HELLO_REQUEST
            · rw [if_pos hty] at hl
              have hfold := ih (tls_add_handshake env s1
                (data.take (4 + L))) (data.drop (4 + L)) rest s'
                hbytes' hrest hl
              rw [List.filter_cons, if_pos (by simpa using hty)]
              simp only [List.map_cons, List.foldl_cons]
              constructor
              · rw [hfold.1]
                simp [tls_add_handshake, hdisp.1]
              · rw [hfold.2]
                simp [tls_add_handshake, hdisp.2]
            · rw [if_neg hty] at hl
              have hfold := ih s1 (data.drop (4 + L)) rest s'
                hbytes' hrest hl
              push_neg at hty
              rw [List.filter_cons, if_neg (by simpa using hty)]
              exact ⟨by rw [hfold.1, hdisp.1], by rw [hfold.2, hdisp.2]⟩

/-- `tls_send_plaintext` never touches the transcript contexts. -/
theorem tls_send_plaintext_hs (env : Env) (s : Session) (ty : Nat)
    (data : List Nat) :
    (tls_send_plaintext env s ty data).2.hs_md5sha1_ctx =
      s.hs_md5sha1_ctx ∧
    (tls_send_plaintext env s ty data).2.hs_sha256_ctx =
      s.hs_sha256_ctx := by
  simp only [tls_send_plaintext]
  by_cases ha : env.alloc_ok
  · by_cases hi : env.iob_alloc_ok
    · rcases henc : env.encrypt s.tx_cipherspec.cipher_ctx
        (tls_send_assembled env s ty data) with ⟨ct, ctx2⟩
      cases hd : env.deliver_rc <;> simp [ha, hi, henc, hd]
    · simp [ha, hi]
  · simp [ha]

/-- **C6.** The handshake transcript contains exactly the handshake
messages sent and received, in order, excluding HelloRequest: a
successfully processed Handshake record appends each of its parsed
messages (headers included, recognised or not) except HelloRequests to
both running transcript contexts, in order; transmitting a handshake
record appends it; and computing a transcript digest finalizes a copied
context, leaving the session (hence the running context) unchanged. -/
theorem C6_transcript (env : Env) (s : Session) (data : List Nat)
    (msgs : List (Nat × List Nat))
    (hcert : ∀ t d, (env.new_certificate t d).2.hs_md5sha1_ctx =
      t.hs_md5sha1_ctx ∧
      (env.new_certificate t d).2.hs_sha256_ctx = t.hs_sha256_ctx)
    (hbytes : ∀ b ∈ data, b < 256)
    (hparse : parseHandshakes data = some msgs) :
    (∀ s', tls_new_handshake env s data = (none, s') →
      s'.hs_md5sha1_ctx = List.foldl env.md5sha1_update s.hs_md5sha1_ctx
        ((msgs.filter (fun m => m.1 != TLS_HELLO_REQUEST)).map Prod.snd) ∧
      s'.hs_sha256_ctx = List.foldl env.sha256_update s.hs_sha256_ctx
        ((msgs.filter (fun m => m.1 != TLS_HELLO_REQUEST)).map Prod.snd)) ∧
    (∀ d, (tls_send_handshake env s d).2.hs_md5sha1_ctx =
        env.md5sha1_update s.hs_md5sha1_ctx d ∧
      (tls_send_handshake env s d).2.hs_sha256_ctx =
        env.sha256_update s.hs_sha256_ctx d) ∧
    (tls_verify_handshake env s).2 = s := by
  refine ⟨fun s' hl => handshake_loop_transcript env hcert data.length s
    data msgs s' hbytes hparse hl, fun d => ?_, rfl⟩
  simp only [tls_send_handshake]
  have h := tls_send_plaintext_hs env (tls_add_handshake env s d)
    TLS_TYPE_HANDSHAKE d
  exact ⟨h.1.trans (by simp [tls_add_handshake]),
    h.2.trans (by simp [tls_add_handshake])⟩

/-- Witness for C6 at a concrete record holding a HelloRequest followed by
an unrecognised handshake message (type 99), under transcript contexts
that accumulate the absorbed bytes: only the unrecognised message is
appended; a transmitted handshake record is appended; the transcript
snapshot leaves the session unchanged. -/
theorem C6_transcript_witness :
    (tls_new_handshake idEnv initSession
      [0, 0, 0, 0, 99, 0, 0, 2, 7, 8]).2.hs_sha256_ctx =
      [99, 0, 0, 2, 7, 8] ∧
    (tls_send_handshake idEnv initSession [1, 2]).2.hs_sha256_ctx =
      idEnv.sha256_update initSession.hs_sha256_ctx [1, 2] ∧
    (tls_verify_handshake idEnv initSession).2 = initSession := by
  have h := C6_transcript idEnv initSession [0, 0, 0, 0, 99, 0, 0, 2, 7, 8]
    [(0, [0, 0, 0, 0]), (99, [99, 0, 0, 2, 7, 8])]
    (fun _ _ => ⟨rfl, rfl⟩) (by decide) rfl
  exact ⟨((h.1 (tls_new_handshake idEnv initSession
      [0, 0, 0, 0, 99, 0, 0, 2, 7, 8]).2
      (Prod.ext (by decide) rfl)).2).trans (by decide),
    (h.2.1 [1, 2]).2, h.2.2⟩

end TLS
